import Mathlib

/-!
Verification development for the Discord attendance/leave/finance webhook
handler (`api/discord.py` of the attendance-bot repository).

Modelling conventions:
* Python strings are `List Char` (one element per code point).
* Raw HTTP bodies and cryptographic byte strings are `List ℕ`.
* Spreadsheet cells are string-or-rational values (`Cell`), matching the
  `UNFORMATTED_VALUE` / `SERIAL_NUMBER` render options used by the code.
* The external world (clock, Google Sheets, Discord REST API, Ed25519
  verification) is passed in as explicit oracle records, so every handler is
  a pure function from (configuration, oracles, sheet contents, payload) to
  (synchronous response, list of performed side effects).
-/

namespace AttendanceBot

/-- Python strings, one entry per code point. -/
abbrev Str := List Char

/-- Embed a Lean string literal as a Python string value. -/
def lit (s : String) : Str := s.data

/-- Python `str.lower()` (ASCII-adequate for the identifiers the bot compares). -/
def pyLower (s : Str) : Str := s.map Char.toLower

/-- Python whitespace characters, as recognised by no-argument `str.strip()`. -/
def isPySpace (c : Char) : Bool :=
  c = ' ' || c = '\t' || c = '\n' || c = '\x0d' || c = '\x0b' || c = '\x0c'

/-- Membership test for the character set of `str.strip("* ")`. -/
def isStarSpace (c : Char) : Bool := c = '*' || c = ' '

/-- Strip characters satisfying `p` from the right end of a string. -/
def rstrip (p : Char → Bool) (s : Str) : Str := (s.reverse.dropWhile p).reverse

/-- Python `str.strip(chars)`: drop characters satisfying `p` from both ends. -/
def pyStrip (p : Char → Bool) (s : Str) : Str := (rstrip p s).dropWhile p

/-- Python no-argument `str.strip()`. -/
def strip (s : Str) : Str := pyStrip isPySpace s

/-- Python `text.split(sep, 1)` for a nonempty separator that occurs in the
    text: `some (before, after)` splits at the *first* occurrence; `none`
    means the separator does not occur (so `sep in text` is `False`). -/
def splitFirst (m : Str) : Str → Option (Str × Str)
  | [] => none
  | c :: t =>
    if m.isPrefixOf (c :: t) then some ([], (c :: t).drop m.length)
    else (splitFirst m t).map (fun p => (c :: p.1, p.2))

/-- Python `sub in s` (for nonempty `sub`). -/
def containsSub (m s : Str) : Bool := (splitFirst m s).isSome

/-- Python `content.split("\n", 1)[0]`. -/
def firstLine (s : Str) : Str :=
  match splitFirst ['\n'] s with
  | some p => p.1
  | none => s

/-- `mismatchB q m`: the two strings disagree at some position that lies below
    both lengths (so the disagreement survives appending anything to `q`). -/
def mismatchB : Str → Str → Bool
  | _, [] => false
  | [], _ => false
  | a :: as, b :: bs => a ≠ b || mismatchB as bs

/-- No occurrence of the pattern `m` can *start* strictly inside `s`:
    every nonempty suffix of `s` disagrees with `m` inside the overlap. -/
def NoEarlyHit (m s : Str) : Prop :=
  ∀ q : Str, q <:+ s → q ≠ [] → mismatchB q m = true

/-- Executable check for `NoEarlyHit` on concrete strings. -/
def noEarlyHitB (m s : Str) : Bool :=
  s.tails.all (fun q => q.isEmpty || mismatchB q m)

-- ======================= Numbers =======================

/-- The decimal digit character for `n % 10`. -/
def digitChar (n : ℕ) : Char := (lit "0123456789").getD (n % 10) '0'

/-- Decimal rendering of a natural number (used for `f"{days}"` etc.). -/
def natStrAux : ℕ → ℕ → Str → Str
  | 0, _, acc => acc
  | fuel + 1, n, acc =>
    if n = 0 then acc else natStrAux fuel (n / 10) (digitChar (n % 10) :: acc)

def natStr (n : ℕ) : Str := if n = 0 then ['0'] else natStrAux n n []

def digitsToNat (ds : Str) : ℕ := ds.foldl (fun a c => 10 * a + (c.toNat - 48)) 0

/-- Python `float(s)` restricted to the decimal forms the handler can meet:
    optional surrounding whitespace, optional sign, digits with an optional
    single decimal point (scientific classification, `inf`/`nan` and underscore
    separators are omitted; none of the verified properties depends on them). -/
def parseFloat (s0 : Str) : Option ℚ :=
  let s := strip s0
  let signed : ℚ × Str :=
    match s with
    | '-' :: t => (-1, t)
    | '+' :: t => (1, t)
    | _ => (1, s)
  let ip := signed.2.takeWhile Char.isDigit
  let r1 := signed.2.dropWhile Char.isDigit
  match r1 with
  | [] => if ip.isEmpty then none else some (signed.1 * (digitsToNat ip : ℚ))
  | '.' :: fp =>
    if fp.all Char.isDigit && !(ip.isEmpty && fp.isEmpty) then
      some (signed.1 *
        ((digitsToNat ip : ℚ) + (digitsToNat fp : ℚ) / (10 : ℚ) ^ fp.length))
    else none
  | _ => none

/-- Truncation toward zero, as Python `int(float)`. -/
def ratTrunc (q : ℚ) : ℤ := Int.tdiv q.num q.den

-- ======================= Spreadsheet cells =======================

/-- A spreadsheet cell as returned with `UNFORMATTED_VALUE`/`SERIAL_NUMBER`:
    either a number (date serials included) or a text value. -/
inductive Cell
  | num (q : ℚ)
  | str (s : Str)
deriving DecidableEq

/-- Python `str(cell)`.  For numeric cells the exact float rendering is
    display-only (no verified property depends on it); text cells are exact.
    (On code paths that call `.strip()`/`.lower()` on a cell, Python would
    raise for a numeric cell; the bot writes text in those columns.) -/
def cellStr : Cell → Str
  | .str s => s
  | .num q =>
    (if q.num < 0 then ['-'] else []) ++ natStr q.num.natAbs ++
      (if q.den = 1 then [] else '/' :: natStr q.den)

/-- Python truthiness of a cell (`cell or ""`). -/
def cellTruthy : Cell → Bool
  | .str s => !s.isEmpty
  | .num q => q ≠ 0

/-- `_to_number`: `float(x)`, `0.0` on failure. -/
def to_number (c : Cell) : ℚ :=
  match c with
  | .num q => q
  | .str s => (parseFloat s).getD 0

/-- `_to_int`: `int(float(str(x)))` with a default on failure. -/
def to_int (c : Cell) (d : ℤ) : ℤ :=
  match c with
  | .num q => ratTrunc q
  | .str s =>
    match parseFloat s with
    | some q => ratTrunc q
    | none => d

-- ======================= Civil-date arithmetic =======================

/-- A calendar date (year, month, day). -/
structure CivilDate where
  year : ℤ
  month : ℤ
  day : ℤ
deriving DecidableEq

/-- Day number of a civil date (0 = 1970-01-01), Howard Hinnant's algorithm. -/
def daysFromCivil (y m d : ℤ) : ℤ :=
  let y' := y - (if m ≤ 2 then 1 else 0)
  let era := Int.fdiv y' 400
  let yoe := y' - era * 400
  let mp := Int.fmod (m + 9) 12
  let doy := Int.fdiv (153 * mp + 2) 5 + d - 1
  let doe := yoe * 365 + Int.fdiv yoe 4 - Int.fdiv yoe 100 + doy
  era * 146097 + doe - 719468

/-- Civil date of a day number (inverse of `daysFromCivil` on valid dates). -/
def civilFromDays (z : ℤ) : CivilDate :=
  let days := z + 719468
  let era := Int.fdiv days 146097
  let doe := days - era * 146097
  let yoe := Int.fdiv (doe - Int.fdiv doe 1460 + Int.fdiv doe 36524 - Int.fdiv doe 146096) 365
  let y := yoe + era * 400
  let doy := doe - (365 * yoe + Int.fdiv yoe 4 - Int.fdiv yoe 100)
  let mp := Int.fdiv (5 * doy + 2) 153
  let d := doy - Int.fdiv (153 * mp + 2) 5 + 1
  let m := mp + (if mp < 10 then 3 else -9)
  ⟨y + (if m ≤ 2 then 1 else 0), m, d⟩

/-- `_SHEETS_EPOCH = datetime(1899, 12, 30)` as a day number. -/
def sheetsEpochDay : ℤ := daysFromCivil 1899 12 30

/-- Python `datetime.date(y, m, d)`: validates its arguments (via the
    round-trip through day numbers, which fixed-point exactly the valid
    triples) and raises — modelled as `none` — otherwise. -/
def dateObj (y m d : ℤ) : Option CivilDate :=
  if 1 ≤ y ∧ y ≤ 9999 ∧ civilFromDays (daysFromCivil y m d) = ⟨y, m, d⟩ then
    some ⟨y, m, d⟩
  else none

/-- Ordering on dates by day number (`date.__le__` for valid dates). -/
def dateLE (a b : CivilDate) : Bool :=
  daysFromCivil a.year a.month a.day ≤ daysFromCivil b.year b.month b.day

-- ======================= `datetime` values =======================

/-- A Python `datetime` at the precision the handler observes: an absolute
    rational day count (civil day number plus fraction of a day, wall-clock
    reading).  Timezone attachment does not change the reading; timezone
    *conversion* UTC→IST adds 5h30m.  (`Asia/Kolkata` is modelled as fixed
    UTC+05:30, the offset the spec names; the tz database's pre-1945
    historical offsets differ by a few minutes and are irrelevant to the
    modern serials the sheet holds.) -/
abbrev PyDateTime := ℚ

def sheetsEpochDT : PyDateTime := (sheetsEpochDay : ℚ)

/-- `datetime + timedelta(days=v)`. -/
def pyAddDays (t : PyDateTime) (v : ℚ) : PyDateTime := t + v

/-- `.astimezone(ZoneInfo("Asia/Kolkata"))` on a UTC datetime: +5:30. -/
def astimezoneIst (t : PyDateTime) : PyDateTime := t + 11 / 48

/-- `.replace(tzinfo=...)`: attaches a zone, wall clock unchanged. -/
def replaceTz (t : PyDateTime) : PyDateTime := t

/-- `.date()` of a datetime. -/
def dtDate (t : PyDateTime) : CivilDate := civilFromDays ⌊t⌋

/-- `sheets_serial_to_date_ist` (numeric path): epoch + serial days as a UTC
    instant, converted to IST, then the calendar date.  The code returns the
    ISO string of this date; the model returns the date itself. -/
def sheets_serial_to_date_ist (v : ℚ) : CivilDate :=
  dtDate (astimezoneIst (pyAddDays sheetsEpochDT v))

/-- Numeric branch of `_sheets_serial_to_dt_ist`: epoch + serial days with
    IST *attached* (no shift); we track the datetime reading. -/
def sheets_serial_to_dt_ist_num (v : ℚ) : PyDateTime :=
  replaceTz (pyAddDays sheetsEpochDT v)

-- ======================= `strptime`-style parsing =======================

/-- Grab 1..`maxLen` leading digits (greedy; the bot writes zero-padded
    timestamps, for which greedy matching coincides with `strptime`'s
    backtracking regex). -/
def grabDigits (maxLen : ℕ) (s : Str) : Option (ℕ × Str) :=
  let ds := (s.takeWhile Char.isDigit).take maxLen
  if ds.isEmpty then none else some (digitsToNat ds, s.drop ds.length)

def expectChar (c : Char) : Str → Option Str
  | x :: t => if x = c then some t else none
  | [] => none

/-- `datetime.strptime(s, "%Y⟨a⟩%m⟨b⟩%d⟨c⟩%H:%M:%S")`, at day precision. -/
def parseYmdHms (sepA sepB sepC : Char) (s : Str) : Option CivilDate := do
  let (y, r1) ← grabDigits 4 s
  let r2 ← expectChar sepA r1
  let (mo, r3) ← grabDigits 2 r2
  let r4 ← expectChar sepB r3
  let (d, r5) ← grabDigits 2 r4
  let r6 ← expectChar sepC r5
  let (h, r7) ← grabDigits 2 r6
  let r8 ← expectChar ':' r7
  let (mi, r9) ← grabDigits 2 r8
  let r10 ← expectChar ':' r9
  let (sec, r11) ← grabDigits 2 r10
  if r11 = [] ∧ h < 24 ∧ mi < 60 ∧ sec < 60 then dateObj (y : ℤ) (mo : ℤ) (d : ℤ)
  else none

/-- `datetime.strptime(s, "%Y-%m-%d")`. -/
def parseYmd (s : Str) : Option CivilDate := do
  let (y, r1) ← grabDigits 4 s
  let r2 ← expectChar '-' r1
  let (mo, r3) ← grabDigits 2 r2
  let r4 ← expectChar '-' r3
  let (d, r5) ← grabDigits 2 r4
  if r5 = [] then dateObj (y : ℤ) (mo : ℤ) (d : ℤ) else none

/-- `datetime.strptime(s, "%d/%m/%Y %H:%M:%S")`. -/
def parseDmyHms (s : Str) : Option CivilDate := do
  let (d, r1) ← grabDigits 2 s
  let r2 ← expectChar '/' r1
  let (mo, r3) ← grabDigits 2 r2
  let r4 ← expectChar '/' r3
  let (y, r5) ← grabDigits 4 r4
  let r6 ← expectChar ' ' r5
  let (h, r7) ← grabDigits 2 r6
  let r8 ← expectChar ':' r7
  let (mi, r9) ← grabDigits 2 r8
  let r10 ← expectChar ':' r9
  let (sec, r11) ← grabDigits 2 r10
  if r11 = [] ∧ h < 24 ∧ mi < 60 ∧ sec < 60 then dateObj (y : ℤ) (mo : ℤ) (d : ℤ)
  else none

/-- `datetime.strptime(s, "%d/%m/%Y %I:%M:%S %p")`. -/
def parseDmyIms (s : Str) : Option CivilDate := do
  let (d, r1) ← grabDigits 2 s
  let r2 ← expectChar '/' r1
  let (mo, r3) ← grabDigits 2 r2
  let r4 ← expectChar '/' r3
  let (y, r5) ← grabDigits 4 r4
  let r6 ← expectChar ' ' r5
  let (h, r7) ← grabDigits 2 r6
  let r8 ← expectChar ':' r7
  let (mi, r9) ← grabDigits 2 r8
  let r10 ← expectChar ':' r9
  let (sec, r11) ← grabDigits 2 r10
  if (r11 = lit " AM" ∨ r11 = lit " PM") ∧ 1 ≤ h ∧ h ≤ 12 ∧ mi < 60 ∧ sec < 60 then
    dateObj (y : ℤ) (mo : ℤ) (d : ℤ)
  else none

/-- `datetime.strptime(s, "%d/%m/%Y")`. -/
def parseDmy (s : Str) : Option CivilDate := do
  let (d, r1) ← grabDigits 2 s
  let r2 ← expectChar '/' r1
  let (mo, r3) ← grabDigits 2 r2
  let r4 ← expectChar '/' r3
  let (y, r5) ← grabDigits 4 r4
  if r5 = [] then dateObj (y : ℤ) (mo : ℤ) (d : ℤ) else none

/-- The fallback chain of `_sheets_serial_to_dt_ist`:
    `"%Y-%m-%d %H:%M:%S"`, `"%Y-%m-%d-%H:%M:%S"`, `"%Y %m %d-%H:%M:%S"`,
    `"%Y/%m/%d %H:%M:%S"`, `"%Y-%m-%d"` in order, first hit wins. -/
def strptimeChain (v : Str) : Option CivilDate :=
  (parseYmdHms '-' '-' ' ' v).orElse fun _ =>
  (parseYmdHms '-' '-' '-' v).orElse fun _ =>
  (parseYmdHms ' ' ' ' '-' v).orElse fun _ =>
  (parseYmdHms '/' '/' ' ' v).orElse fun _ =>
  parseYmd v

/-- `_sheets_serial_to_dt_ist`, at the day precision its callers use:
    `some` (date of the resulting IST datetime) when the cell parses, else
    `none`.  Numeric cells (and numeric strings) go through
    `epoch + timedelta(days=v)` with IST attached. -/
def sheets_serial_to_dt_ist (c : Cell) : Option CivilDate :=
  match c with
  | .num q => some (dtDate (sheets_serial_to_dt_ist_num q))
  | .str s0 =>
    let v := strip s0
    if v.isEmpty then none
    else
      match parseFloat v with
      | some q => some (dtDate (sheets_serial_to_dt_ist_num q))
      | none => strptimeChain v

/-- Python `s.split("-")`. -/
def splitOnChar (sep : Char) : Str → List Str
  | [] => [[]]
  | c :: t =>
    let r := splitOnChar sep t
    if c = sep then [] :: r
    else
      match r with
      | [] => [[c]]
      | h :: rt => (c :: h) :: rt

/-- `_cell_is_today_ist`: same Y-M-D (IST) as today.  The string fallback
    takes the first whitespace-separated token and reads `Y-M-D` off it. -/
def cell_is_today_ist (c : Cell) (today : CivilDate) : Bool :=
  match sheets_serial_to_dt_ist c with
  | some d => d = today
  | none =>
    let s := strip (cellStr c)
    if s.isEmpty then false
    else
      let first := s.takeWhile (fun ch => !(isPySpace ch))
      match splitOnChar '-' first with
      | p1 :: p2 :: p3 :: _ =>
        if (p1 ++ p2 ++ p3).all Char.isDigit ∧ p1 ≠ [] ∧ p2 ≠ [] ∧ p3 ≠ [] then
          match dateObj (digitsToNat p1) (digitsToNat p2) (digitsToNat p3) with
          | some d => d = today
          | none => false
        else false
      | _ => false

/-- `datetime.fromisoformat`, restricted to the naive forms that occur in
    the sheet (date, or date plus a `T`/space time); timezone-suffixed forms
    are not modelled and yield `none` (the bot never writes them). -/
def isoParse (s : Str) : Option CivilDate :=
  (parseYmd s).orElse fun _ =>
  (parseYmdHms '-' '-' 'T' s).orElse fun _ => parseYmdHms '-' '-' ' ' s

/-- `_ts_cell_to_date_ist`: serial/strptime chain, then strict formats on
    length-truncated prefixes (the `s[:len(fmt)]` quirk of the source), then
    ISO, then `DD/MM/YYYY` variants. -/
def ts_cell_to_date_ist (c : Cell) : Option CivilDate :=
  match sheets_serial_to_dt_ist c with
  | some d => some d
  | none =>
    let s := strip (cellStr c)
    if s.isEmpty then none
    else
      (parseYmdHms '-' '-' ' ' (s.take 17)).orElse fun _ =>
      (parseYmd (s.take 8)).orElse fun _ =>
      (isoParse s).orElse fun _ =>
      (parseDmyIms s).orElse fun _ =>
      (parseDmyHms s).orElse fun _ =>
      parseDmy s

-- ======================= Date formatting =======================

def pad2 (n : ℤ) : Str := [digitChar (n.toNat / 10), digitChar n.toNat]

def pad4 (n : ℤ) : Str :=
  [digitChar (n.toNat / 1000), digitChar (n.toNat / 100),
   digitChar (n.toNat / 10), digitChar n.toNat]

/-- `date.isoformat()`.  Python dates always satisfy `1 ≤ year ≤ 9999`, so
    the 4-digit padding is exact on every date the code can construct. -/
def isoDate (c : CivilDate) : Str :=
  pad4 c.year ++ '-' :: pad2 c.month ++ '-' :: pad2 c.day

/-- `date.strftime("%a")`; day number 0 (1970-01-01) was a Thursday. -/
def weekdayName (z : ℤ) : Str :=
  if Int.emod z 7 = 0 then lit "Thu" else if Int.emod z 7 = 1 then lit "Fri"
  else if Int.emod z 7 = 2 then lit "Sat" else if Int.emod z 7 = 3 then lit "Sun"
  else if Int.emod z 7 = 4 then lit "Mon" else if Int.emod z 7 = 5 then lit "Tue"
  else lit "Wed"

/-- The date-picker / autocomplete option label
    `f"{d.isoformat()} ({d.strftime('%a')})"` for day number `z`. -/
def dateLabel (z : ℤ) : Str :=
  isoDate (civilFromDays z) ++ lit " (" ++ weekdayName z ++ lit ")"

-- ======================= Configuration =======================

/-- The environment-derived configuration (each field already `.strip()`ed,
    empty when the variable is unset). -/
structure Config where
  discordPublicKey : Str
  sheetId : Str
  botToken : Str
  financeChannelId : Str
  approverChannelId : Str
  approverUserId : Str
  leaveStatusChannelId : Str
  hrRoleId : Str
  attendanceChannelId : Str
  contentRequestsChannelId : Str
  assetsReviewsChannelId : Str
  leaveRequestsChannelId : Str
  contentTeamChannelId : Str

/-- `CMD_ALLOWED_CHANNELS.get(cmd)`: `some` of the allowed-channel set
    (modelled as a list; every set in the table is a singleton) for the
    eleven restricted commands, `none` for any other command name. -/
def cmdAllowedChannels (cfg : Config) (cmd : Str) : Option (List Str) :=
  if cmd = lit "leaverequest" then some [cfg.leaveRequestsChannelId]
  else if cmd = lit "wfh" then some [cfg.leaveRequestsChannelId]
  else if cmd = lit "leavecount" then some [cfg.leaveRequestsChannelId]
  else if cmd = lit "attendance" then some [cfg.attendanceChannelId]
  else if cmd = lit "contentrequest" then some [cfg.contentTeamChannelId]
  else if cmd = lit "assetreview" then some [cfg.contentTeamChannelId]
  else if cmd = lit "recordinvoice" then some [cfg.financeChannelId]
  else if cmd = lit "clearinvoice" then some [cfg.financeChannelId]
  else if cmd = lit "viewinvoice" then some [cfg.financeChannelId]
  else if cmd = lit "viewfinstatus" then some [cfg.financeChannelId]
  else if cmd = lit "recordtax" then some [cfg.financeChannelId]
  else none

/-- `CHANNEL_LABELS.get(cid, f"<#{cid}>")`.  The Python dict assigns labels
    in insertion order with the `#finance` update applied last, so on
    colliding channel ids the *later* assignment wins: the lookup is checked
    in reverse insertion order. -/
def channelLabel (cfg : Config) (cid : Str) : Str :=
  if cid = cfg.financeChannelId then lit "#finance"
  else if cid = cfg.contentTeamChannelId then lit "#content-team"
  else if cid = cfg.assetsReviewsChannelId then lit "#assets-reviews"
  else if cid = cfg.contentRequestsChannelId then lit "#content-requests"
  else if cid = cfg.attendanceChannelId then lit "#attendance"
  else if cid = cfg.leaveRequestsChannelId then lit "#leave-requests"
  else lit "<#" ++ cid ++ lit ">"

/-- `channel_allowed(cmd, cid)`. -/
def channel_allowed (cfg : Config) (cmd cid : Str) : Bool :=
  let allowed := (cmdAllowedChannels cfg (pyLower cmd)).getD []
  !cid.isEmpty && cid ∈ allowed

-- ======================= Responses and effects =======================

/-- An autocomplete choice (`{"name": label, "value": value}`). -/
structure Choice where
  name : Str
  value : Str
deriving DecidableEq

/-- The synchronous answer the endpoint returns for one request. -/
inductive Resp
  /-- `HTTPException(status_code=401)` — invalid request signature. -/
  | http401
  /-- an exception escaped the handler (e.g. `request.json()` failed). -/
  | serverError
  /-- interaction response `{"type": 1}` (PONG). -/
  | pong
  /-- `{"type": 4}` channel message, with the ephemeral flag. -/
  | msg (content : Str) (ephemeral : Bool)
  /-- `{"type": 7}` update-message (edited content; components elided). -/
  | update (content : Str)
  /-- `{"type": 9}` modal with its `custom_id` and title. -/
  | modal (customId : Str) (title : Str)
  /-- `{"type": 8}` autocomplete result. -/
  | autocomplete (choices : List Choice)
deriving DecidableEq

/-- `discord_response_message(content, ephemeral)`. -/
def discord_response_message (content : Str) (ephemeral : Bool) : Resp :=
  .msg content ephemeral

/-- Externally visible side effects a handler can perform, in order. -/
inductive Effect
  /-- `values().append` of one row to a named range. -/
  | sheetAppend (range : Str) (row : List Cell)
  /-- successful `POST /channels/{cid}/messages`. -/
  | chanPost (channelId : Str) (content : Str)
  /-- successful DM to a user (channel open + message send). -/
  | dmPost (userId : Str) (content : Str)
  /-- successful `PATCH /channels/{cid}/messages/{mid}`. -/
  | msgEdit (channelId : Str) (messageId : Str) (content : Str)
  /-- calendar `events().insert`. -/
  | calendarInsert (title : Str) (startStr : Str) (endStr : Str)
deriving DecidableEq

/-- Outcome of one low-level Ed25519 verification attempt. -/
inductive VerifyOutcome
  | ok
  | badSignature
  | raised
deriving DecidableEq

/-- The Ed25519 primitive (`nacl.signing.VerifyKey(...).verify`), abstracted:
    given the 32 key bytes, the 64 signature bytes and the signed message. -/
structure CryptoOracle where
  verify : List ℕ → List ℕ → List ℕ → VerifyOutcome

/-- Stand-in for `timestamp.encode()`; injective on code points, which is all
    the abstract crypto oracle can observe. -/
def strBytes (s : Str) : List ℕ := s.map Char.toNat

/-- `int(hexdigit)` for one character. -/
def hexVal (c : Char) : Option ℕ :=
  if '0' ≤ c ∧ c ≤ '9' then some (c.toNat - 48)
  else if 'a' ≤ c ∧ c ≤ 'f' then some (c.toNat - 87)
  else if 'A' ≤ c ∧ c ≤ 'F' then some (c.toNat - 55)
  else none

/-- `bytes.fromhex` (spaces between bytes are skipped, as in CPython);
    `none` models the raised `ValueError`. -/
def hexDecodeCore : Str → Option (List ℕ)
  | [] => some []
  | [_] => none
  | a :: b :: t =>
    match hexVal a, hexVal b with
    | some x, some y => (hexDecodeCore t).map (fun r => (16 * x + y) :: r)
    | _, _ => none

def hexDecode (s : Str) : Option (List ℕ) := hexDecodeCore (s.filter (· ≠ ' '))

/-- `verify_signature(signature, timestamp, body)`.  Fails closed: empty
    public-key configuration, malformed hex, wrong key/signature sizes
    (which make PyNaCl raise) and any non-`ok` oracle outcome — exceptions
    included — all yield `false`; no exception escapes. -/
def verify_signature (publicKey : Str) (oracle : CryptoOracle)
    (signature timestamp : Str) (body : List ℕ) : Bool :=
  if publicKey.isEmpty then false
  else
    match hexDecode publicKey with
    | none => false
    | some pk =>
      if pk.length ≠ 32 then false
      else
        match hexDecode signature with
        | none => false
        | some sig =>
          if sig.length ≠ 64 then false
          else
            match oracle.verify pk sig (strBytes timestamp ++ body) with
            | .ok => true
            | _ => false

/-- Case-insensitive header lookup (both the FastAPI `Header` alias and the
    explicit lowercase fallback resolve this way through Starlette). -/
def headerGet (headers : List (Str × Str)) (nm : Str) : Option Str :=
  (headers.find? (fun p => pyLower p.1 = pyLower nm)).map (·.2)

-- ======================= External-world oracle =======================

/-- Everything the handler observes from the outside world other than the
    payload: the IST clock and the success/failure of each category of
    upstream call.  A `false`/`none` outcome models the corresponding call
    raising; a raised call performs no observable effect. -/
structure Ext where
  /-- `get_ist_timestamp()` — "%Y-%m-%d %H:%M:%S" IST now. -/
  nowTs : Str
  /-- the "%Y %m %d-%H:%M:%S" timestamp `append_attendance_row` writes. -/
  nowAtt : Str
  /-- `today_ist_date()` as an absolute day number. -/
  todayZ : ℤ
  /-- `datetime.now(IST).strftime("%B %Y")` (leave-count heading). -/
  monthLabel : Str
  /-- Sheets `values().get` calls succeed. -/
  readOk : Bool
  /-- Sheets `values().append` calls succeed. -/
  appendOk : Bool
  /-- Discord channel posts (`requests.post` + `raise_for_status`) succeed. -/
  postOk : Bool
  /-- Discord message fetch/edit calls succeed. -/
  editOk : Bool
  /-- DM-channel creation: `some cid` on success, `none` when it fails. -/
  dmChannelOf : Str → Option Str
  /-- calendar event insert succeeds. -/
  calendarOk : Bool
  /-- `hangoutLink` of a created event. -/
  meetLink : Str
  /-- rendering of `f"{type(e).__name__}: {e}"` for a raised upstream call. -/
  excText : Str
  /-- Admin Reports (Meet audit) calls succeed. -/
  reportsOk : Bool
  /-- participant emails returned by the Meet audit. -/
  meetEmails : List Str
  /-- `GET /channels/{cid}/messages/{mid}`: the fetched card content, or
      `none` for a non-200 answer. -/
  fetched : Option Str

/-- `today_ist_date()` as a civil date. -/
def Ext.today (ext : Ext) : CivilDate := civilFromDays ext.todayZ

-- ======================= Sheet data and attendance =======================

/-- Sheet contents visible to the handler: each named range as its rows. -/
structure SheetData where
  attendance : List (List Cell)
  invoices : List (List Cell)
  invoiceClears : List (List Cell)
  taxes : List (List Cell)
  leaveDecisions : List (List Cell)

def ATTENDANCE_WRITE_RANGE : Str := lit "Attendance!A:E"
def INVOICES_RANGE : Str := lit "'Invoices'!A:E"
def INVOICE_CLEARS_RANGE : Str := lit "'Invoice Clears'!A:D"
def TAXES_RANGE : Str := lit "'Taxes'!A:E"
def LEAVE_REQUESTS_RANGE : Str := lit "'Leave Requests'!A:F"
def LEAVE_DECISIONS_RANGE : Str := lit "'Leave Decisions'!A:H"
def WFH_REQUESTS_RANGE : Str := lit "'WFH Requests'!A:D"
def WFH_DECISIONS_RANGE : Str := lit "'WFH Decisions'!A:G"

/-- `row[i]`, an empty text cell when the row is shorter. -/
def rowCell (r : List Cell) (i : ℕ) : Cell := r.getD i (.str [])

/-- `(row[i] if len(row) > i else "").strip()`. -/
def rowStr (r : List Cell) (i : ℕ) : Str := strip (cellStr (rowCell r i))

/-- `_row_matches_user`: user id wins when both sides have one, otherwise
    case-insensitive name comparison. -/
def row_matches_user (r : List Cell) (targetName targetUserId : Str) : Bool :=
  let uid := rowStr r 3
  let nm := rowStr r 1
  if !uid.isEmpty && !targetUserId.isEmpty then uid = targetUserId
  else pyLower (strip nm) = pyLower (strip targetName)

/-- One attendance row counted as this user's `act` ("login"/"logout") today. -/
def rowIsUserActionToday (r : List Cell) (nm uid : Str) (today : CivilDate)
    (act : Str) : Bool :=
  decide (3 ≤ r.length) && row_matches_user r nm uid &&
    cell_is_today_ist (rowCell r 0) today &&
    decide (pyLower (strip (cellStr (rowCell r 2))) = act)

/-- The scan loop of `get_today_status`, with its two accumulator flags and
    the early exit once both are set. -/
def get_today_status_go (nm uid : Str) (today : CivilDate) :
    List (List Cell) → Bool → Bool → Bool × Bool
  | [], hasLogin, hasLogout => (hasLogin, hasLogout)
  | r :: rest, hasLogin, hasLogout =>
    if r.length < 3 then get_today_status_go nm uid today rest hasLogin hasLogout
    else if !(row_matches_user r nm uid) then
      get_today_status_go nm uid today rest hasLogin hasLogout
    else if !(cell_is_today_ist (rowCell r 0) today) then
      get_today_status_go nm uid today rest hasLogin hasLogout
    else
      let a := pyLower (strip (cellStr (rowCell r 2)))
      let hasLogin' := hasLogin || (a = lit "login")
      let hasLogout' := hasLogout || (a = lit "logout")
      if hasLogin' && hasLogout' then (hasLogin', hasLogout')
      else get_today_status_go nm uid today rest hasLogin' hasLogout'

/-- `get_today_status(name, user_id)` over the attendance rows. -/
def get_today_status (rows : List (List Cell)) (nm uid : Str)
    (today : CivilDate) : Bool × Bool :=
  get_today_status_go nm uid today rows false false

/-- The row `append_attendance_row` appends. -/
def attendanceRow (ext : Ext) (nm action uid progress : Str) : List Cell :=
  [.str ext.nowAtt, .str nm, .str action, .str uid, .str (strip progress)]

def joinSep (sep : Str) : List Str → Str
  | [] => []
  | [x] => x
  | x :: xs => x ++ sep ++ joinSep sep xs

/-- `deny_wrong_channel(cmd, cid)`: the deterministic ephemeral rejection,
    listing the configured (nonempty) allowed channels by label, or naming
    "the configured channel" when none is configured. -/
def deny_wrong_channel (cfg : Config) (cmd : Str) : Resp :=
  let allowed := ((cmdAllowedChannels cfg (pyLower cmd)).getD []).filter (fun c => !c.isEmpty)
  let whereTo :=
    if allowed.isEmpty then lit "the configured channel"
    else joinSep (lit " or ") (allowed.map (channelLabel cfg))
  discord_response_message
    (lit "⛔ **/" ++ cmd ++ lit "** isn’t allowed here. Use it in " ++ whereTo ++ lit ".")
    true

/-- Message text of the attendance broadcast. -/
def broadcastAttContent (cfg : Config) (ext : Ext) (nm action uid progress : Str) : Str :=
  let rolePing := if !cfg.hrRoleId.isEmpty then lit "<@&" ++ cfg.hrRoleId ++ lit ">" else lit "HR"
  let userPing := if !uid.isEmpty then lit "<@" ++ uid ++ lit ">" else nm
  let icon := if pyLower action = lit "login" then lit "🟢" else lit "🔴"
  let base := icon ++ lit " **Attendance**\n👤 " ++ userPing ++ lit " — **" ++ nm ++
    lit "**\n🕒 " ++ ext.nowTs ++ lit " IST\n📝 Action: **" ++ action ++ lit "**"
  let base := if pyLower action = lit "logout" && !(strip progress).isEmpty then
      base ++ lit "\n📈 **Daily Progress:** " ++ strip progress
    else base
  base ++ lit "\n" ++ rolePing ++ lit " please take note."

/-- DM receipt text of the attendance broadcast. -/
def broadcastAttDm (ext : Ext) (nm action progress : Str) : Str :=
  let icon := if pyLower action = lit "login" then lit "🟢" else lit "🔴"
  let base := icon ++ lit " Attendance recorded for **" ++ nm ++ lit "**\n🕒 " ++
    ext.nowTs ++ lit " IST\nAction: **" ++ action ++ lit "**"
  if pyLower action = lit "logout" && !(strip progress).isEmpty then
    base ++ lit "\n📈 Progress: " ++ strip progress
  else base

/-- `broadcast_attendance`: channel post then DM receipt, each best-effort
    (its own `try`/`except` in the source — a raised call leaves no effect
    and aborts nothing). -/
def broadcast_attendance (cfg : Config) (ext : Ext) (nm action uid fallbackCid : Str)
    (progress : Str) : List Effect :=
  if cfg.botToken.isEmpty then []
  else
    let channelId :=
      if !cfg.attendanceChannelId.isEmpty then cfg.attendanceChannelId else fallbackCid
    if channelId.isEmpty then []
    else
      (if ext.postOk then
        [Effect.chanPost channelId (broadcastAttContent cfg ext nm action uid progress)]
      else []) ++
      (if !uid.isEmpty then
        match ext.dmChannelOf uid with
        | some _ =>
          if ext.postOk then [Effect.dmPost uid (broadcastAttDm ext nm action progress)] else []
        | none => []
      else [])

/-- The `/attendance` command branch. -/
def attendanceCommand (cfg : Config) (ext : Ext) (st : SheetData)
    (channelId userId userName : Str) : Resp × List Effect :=
  if !(channel_allowed cfg (lit "attendance") channelId) then
    (deny_wrong_channel cfg (lit "attendance"), [])
  else if !ext.readOk then
    (discord_response_message (lit "❌ Could not read attendance. " ++ ext.excText) true, [])
  else
    let status := get_today_status st.attendance userName userId ext.today
    if !status.1 then
      if ext.appendOk then
        (discord_response_message
          (lit "🟢 ✅ Recorded **Login** for **" ++ userName ++ lit "** • 🕒 " ++
            ext.nowTs ++ lit " IST") true,
          Effect.sheetAppend ATTENDANCE_WRITE_RANGE
              (attendanceRow ext userName (lit "Login") userId []) ::
            broadcast_attendance cfg ext userName (lit "Login") userId channelId [])
      else
        (discord_response_message (lit "❌ Failed to record login. " ++ ext.excText) true, [])
    else if status.1 && !status.2 then
      (Resp.modal (lit "att_logout_progress::" ++ userId)
        (lit "Daily progress (required for logout)"), [])
    else
      (discord_response_message
        (lit "ℹ️ You’ve already recorded **Login** and **Logout** for today.") true, [])

/-- The `att_logout_progress::…` modal-submit branch.  `get_today_status` is
    *not* wrapped in `try` here: a raised read escapes as a server error. -/
def attLogoutModal (cfg : Config) (ext : Ext) (st : SheetData)
    (customId userId userName channelId : Str) (values : List Str) : Resp × List Effect :=
  let expectedUid :=
    match splitFirst (lit "::") customId with
    | some pr => pr.2
    | none => []
  if !expectedUid.isEmpty && expectedUid ≠ userId then
    (discord_response_message (lit "❌ This modal isn’t for you.") true, [])
  else
    let progress := strip (values.getD 0 [])
    if !ext.readOk then (Resp.serverError, [])
    else
      let status := get_today_status st.attendance userName userId ext.today
      if !status.1 then
        (discord_response_message
          (lit "⚠️ No **Login** found for today. Please log in first.") true, [])
      else if status.2 then
        (discord_response_message (lit "ℹ️ **Logout** already recorded for today.") true, [])
      else if ext.appendOk then
        (discord_response_message
          (lit "🔴 ✅ **Logout** recorded with your daily progress. Have a good one!") true,
          Effect.sheetAppend ATTENDANCE_WRITE_RANGE
              (attendanceRow ext userName (lit "Logout") userId progress) ::
            broadcast_attendance cfg ext userName (lit "Logout") userId channelId progress)
      else
        (discord_response_message (lit "❌ Failed to record logout. " ++ ext.excText) true, [])

-- ======================= Finance aggregation =======================

def cellIsStr : Cell → Bool
  | .str _ => true
  | .num _ => false

/-- Skip the header row when the designated value column holds text. -/
def headerSkip (rows : List (List Cell)) (minLen valCol : ℕ) : List (List Cell) :=
  match rows with
  | [] => []
  | r :: rest => if minLen ≤ r.length ∧ cellIsStr (rowCell r valCol) then rest else r :: rest

/-- Association lists standing for the Python dicts (insertion-ordered). -/
abbrev RatAL := List (Str × ℚ)

def alGet (k : Str) (d : RatAL) : Option ℚ := (d.find? (fun p => p.1 = k)).map (·.2)

def alGetD (k : Str) (d : RatAL) (q : ℚ) : ℚ := (alGet k d).getD q

/-- `d[k] = d.get(k, 0.0) + v`. -/
def alAdd (d : RatAL) (k : Str) (v : ℚ) : RatAL :=
  match d with
  | [] => [(k, v)]
  | (k', v') :: t => if k' = k then (k', v' + v) :: t else (k', v') :: alAdd t k v

/-- `totals_by_invoice` of `compute_fin_status`. -/
def totals_by_invoice (inv : List (List Cell)) : RatAL :=
  (headerSkip inv 4 3).foldl
    (fun acc r =>
      if r.length < 4 then acc
      else alAdd acc (strip (cellStr (rowCell r 2))) (to_number (rowCell r 3))) []

/-- `cleared_by_invoice` of `compute_fin_status`. -/
def cleared_by_invoice (cl : List (List Cell)) : RatAL :=
  (headerSkip cl 3 2).foldl
    (fun acc r =>
      if r.length < 3 then acc
      else alAdd acc (strip (cellStr (rowCell r 1))) (to_number (rowCell r 2))) []

/-- `taxes_by_type` of `compute_fin_status`. -/
def taxes_by_type (tx : List (List Cell)) : RatAL :=
  (headerSkip tx 4 3).foldl
    (fun acc r =>
      if r.length < 4 then acc
      else
        let k0 := strip (cellStr (rowCell r 2))
        let k := if k0.isEmpty then lit "Unspecified" else k0
        alAdd acc k (to_number (rowCell r 3))) []

/-- `outstanding_by_invoice`: per invoice number found in the invoice rows,
    `max(total - cleared, 0.0)`. -/
def outstanding_by_invoice_of (totals cleared : RatAL) : RatAL :=
  totals.map (fun p => (p.1, max (p.2 - alGetD p.1 cleared 0) 0))

/-- `compute_fin_status()`: (total invoiced, total cleared, outstanding
    total, taxes by type, outstanding by invoice), recomputed from a full
    scan of the three ranges. -/
def compute_fin_status (st : SheetData) : ℚ × ℚ × ℚ × RatAL × RatAL :=
  let totals := totals_by_invoice st.invoices
  let cleared := cleared_by_invoice st.invoiceClears
  let taxes := taxes_by_type st.taxes
  let outstanding := outstanding_by_invoice_of totals cleared
  let ti := (totals.map (·.2)).sum
  let tc := (cleared.map (·.2)).sum
  (ti, tc, max (ti - tc) 0, taxes, outstanding)

-- ======================= Invoice autocomplete =======================

structure InvEntry where
  invNo : Str
  company : Str
  total : ℚ
  cleared : ℚ
  outstanding : ℚ
deriving DecidableEq

def alSetIfAbsent (d : List (Str × Str)) (k v : Str) : List (Str × Str) :=
  if (d.find? (fun p => p.1 = k)).isSome then d else d ++ [(k, v)]

/-- The `totals`/`companies` builder of `list_invoices_for_autocomplete`
    (empty invoice numbers are skipped here, unlike `compute_fin_status`). -/
def invTotalsCompanies (inv : List (List Cell)) : RatAL × List (Str × Str) :=
  (headerSkip inv 4 3).foldl
    (fun acc r =>
      if r.length < 4 then acc
      else
        let invNo := strip (cellStr (rowCell r 2))
        if invNo.isEmpty then acc
        else
          (alAdd acc.1 invNo (to_number (rowCell r 3)),
           alSetIfAbsent acc.2 invNo (strip (cellStr (rowCell r 1))))) ([], [])

def clearedNonempty (cl : List (List Cell)) : RatAL :=
  (headerSkip cl 3 2).foldl
    (fun acc r =>
      if r.length < 3 then acc
      else
        let invNo := strip (cellStr (rowCell r 1))
        if invNo.isEmpty then acc
        else alAdd acc invNo (to_number (rowCell r 2))) []

/-- Lexicographic string order (Python `str.__lt__` on code points). -/
def strLe : Str → Str → Bool
  | [], _ => true
  | _ :: _, [] => false
  | c :: cs, d :: ds => if c = d then strLe cs ds else decide (c < d)

/-- `sort(key=lambda x: (-x[4], x[0]))`: most outstanding first, ties by
    invoice number. -/
def invLe (a b : InvEntry) : Bool :=
  if a.outstanding = b.outstanding then strLe a.invNo b.invNo
  else decide (b.outstanding < a.outstanding)

def insertLe {α : Type} (le : α → α → Bool) (x : α) : List α → List α
  | [] => [x]
  | y :: ys => if le x y then x :: y :: ys else y :: insertLe le x ys

/-- Stable-enough insertion sort (only length and membership matter to the
    verified properties). -/
def sortLe {α : Type} (le : α → α → Bool) : List α → List α
  | [] => []
  | x :: xs => insertLe le x (sortLe le xs)

/-- `list_invoices_for_autocomplete(query)`: per-invoice aggregates filtered
    by the query, sorted, truncated to 25. -/
def list_invoices_for_autocomplete (q : Str) (inv cl : List (List Cell)) : List InvEntry :=
  let tc := invTotalsCompanies inv
  let cleared := clearedNonempty cl
  let ql := pyLower q
  let rows := tc.1.filterMap (fun p =>
    let comp := ((tc.2.find? (fun e => e.1 = p.1)).map (·.2)).getD []
    let clr := alGetD p.1 cleared 0
    let out := max (p.2 - clr) 0
    if !ql.isEmpty && !(containsSub ql (pyLower p.1)) && !(containsSub ql (pyLower comp)) then
      none
    else some ⟨p.1, comp, p.2, clr, out⟩)
  (sortLe invLe rows).take 25

-- ======================= Attendance employees (current month) =======================

/-- `_month_bounds_ist()`. -/
def month_bounds_ist (ext : Ext) : CivilDate × CivilDate :=
  let n := ext.today
  (⟨n.year, n.month, 1⟩,
   if n.month = 12 then ⟨n.year, 12, 31⟩
   else civilFromDays (daysFromCivil n.year (n.month + 1) 1 - 1))

/-- The scan loop of `list_attendance_employees_current_month` (dedup by
    user id or lowercased name, stop after `maxItems` entries). -/
def list_employees_go (mstart mend : CivilDate) (maxItems : ℕ) :
    List (List Cell) → List Str → List (Str × Str) → List (Str × Str)
  | [], _, out => out
  | r :: rest, seen, out =>
    if r.length < 2 then list_employees_go mstart mend maxItems rest seen out
    else
      let nm := strip (cellStr (rowCell r 1))
      let uid := rowStr r 3
      match ts_cell_to_date_ist (rowCell r 0) with
      | none => list_employees_go mstart mend maxItems rest seen out
      | some dt =>
        if !(dateLE mstart dt && dateLE dt mend) || nm.isEmpty then
          list_employees_go mstart mend maxItems rest seen out
        else
          let key := if uid.isEmpty then pyLower nm else uid
          if key ∈ seen then list_employees_go mstart mend maxItems rest seen out
          else
            let out' := out ++ [(nm, nm)]
            if maxItems ≤ out'.length then out'
            else list_employees_go mstart mend maxItems rest (key :: seen) out'

/-- `list_attendance_employees_current_month()`. -/
def list_attendance_employees_current_month (ext : Ext)
    (rows : List (List Cell)) : List (Str × Str) :=
  let b := month_bounds_ist ext
  sortLe (fun a b => strLe (pyLower a.1) (pyLower b.1))
    (list_employees_go b.1 b.2 25 rows [] [])

-- ======================= Interaction payloads =======================

/-- One slash-command option (`{"name": …, "value": …, "focused": …}`);
    the value is kept `str(…)`-coerced, as `_get_opt` reads it. -/
structure OptVal where
  name : Str
  value : Str
  focused : Bool := false

/-- The parsed interaction payload, with the nested `member`/`user` identity
    resolution (`global_name or username or "Unknown"`) collapsed into
    `userName`, and `data.resolved.attachments` collapsed into per-option
    `(filename, url)` pairs. -/
structure Payload where
  ptype : ℕ
  cmdName : Str := []
  channelId : Str := []
  userId : Str := []
  userName : Str := lit "Unknown"
  options : List OptVal := []
  attachments : List (Str × Str × Str) := []
  customId : Str := []
  messageContent : Str := []
  messageId : Str := []
  modalValues : List Str := []
  selectValues : List Str := []

/-- `_get_opt(opts, name)`: case-insensitive lookup, `str(v).strip()`. -/
def get_opt (opts : List OptVal) (nm : Str) : Str :=
  match opts.find? (fun o => pyLower o.name = pyLower nm) with
  | some o => strip o.value
  | none => []

/-- The branches that scan `options` with an exact `==` on the name. -/
def getOptExact (opts : List OptVal) (nm : Str) : Str :=
  match opts.find? (fun o => o.name = nm) with
  | some o => strip o.value
  | none => []

/-- `_get_attachment_from_options`, collapsed to (filename, url). -/
def getAttachment (p : Payload) (optName : Str) : Option (Str × Str) :=
  (p.attachments.find? (fun a => a.1 = optName)).map (fun a => (a.2.1, a.2.2))

def intStr (z : ℤ) : Str := if z < 0 then '-' :: natStr z.natAbs else natStr z.natAbs

/-- Display-only stand-in for Python's `f"{x:,.2f}"`/`f"{x:,.0f}"` money
    rendering (grouping/rounding of the display never affects a verified
    property: these strings are only shown or truncated). -/
def moneyFmt (q : ℚ) : Str := intStr ⌊q⌋

-- ======================= Chat cards and their parsers =======================

/-- The leave-request card posted to the approver (`/leaverequest` branch and
    the `leave_reason::` modal build the same text). -/
def leaveCardContent (nm fromS toS : Str) (days : ℤ) (reason : Str) : Str :=
  lit "📩 **Leave Request from " ++ nm ++ lit "**\n🗓️ **From:** " ++ fromS ++
  lit "\n🗓️ **To:** " ++ toS ++ lit "\n🗓️ **Days:** " ++ intStr days ++
  lit "\n💬 **Reason:** " ++ (if reason.isEmpty then lit "(not provided)" else reason) ++
  lit "\n\nPlease review and respond accordingly."

/-- The WFH-request card. -/
def wfhCardContent (nm day reason : Str) : Str :=
  lit "🏠 **WFH Request from " ++ nm ++ lit "**\n📅 **Date:** " ++ day ++
  lit "\n💬 **Reason:** " ++ (if reason.isEmpty then lit "(not provided)" else reason) ++
  lit "\n\nPlease review and respond accordingly."

/-- `_grab` / `grab_between`: if the marker occurs, everything from after its
    first occurrence to the end of that line, stripped; else `""`. -/
def grabBetween (marker text : Str) : Str :=
  match splitFirst marker text with
  | none => []
  | some pr => strip (firstLine pr.2)

/-- The `for marker in […]: if marker in line: take the part after; break`
    idiom of the card parsers (first matching marker wins). -/
def stripReqMarker (markers : List Str) (line : Str) : Str :=
  match markers with
  | [] => line
  | m :: rest =>
    match splitFirst m line with
    | some pr => pr.2
    | none => stripReqMarker rest line

def leaveMarkers : List Str :=
  [lit "**Leave Request from ", lit "Leave Request from ", lit "📩 **Leave Request from "]

def wfhMarkers : List Str :=
  [lit "**WFH Request from ", lit "WFH Request from ", lit "🏠 **WFH Request from "]

/-- The leave-card parser of the approve/reject flows: requester off the
    first line (strip markers, then `*`/space, then whitespace), then the
    labelled `From`/`To`/`Reason`/`Days` lines (`"0"` when `Days` is absent). -/
def parse_leave_card (content : Str) : Str × Str × Str × Str × ℤ :=
  let fl := firstLine content
  let reqName := strip (pyStrip isStarSpace (stripReqMarker leaveMarkers fl))
  let fromStr := grabBetween (lit "**From:** ") content
  let toStr := grabBetween (lit "**To:** ") content
  let reason := grabBetween (lit "**Reason:** ") content
  let daysStr0 := grabBetween (lit "**Days:** ") content
  let daysStr := if daysStr0.isEmpty then lit "0" else daysStr0
  (reqName, fromStr, toStr, reason, to_int (.str daysStr) 0)

/-- `parse_wfh_card`. -/
def parse_wfh_card (content : Str) : Str × Str × Str :=
  let fl := firstLine content
  let nm := strip (pyStrip isStarSpace (stripReqMarker wfhMarkers fl))
  let d0 := grabBetween (lit "**Date:** ") content
  let d := if d0.isEmpty then grabBetween (lit "Date:") content else d0
  let r0 := grabBetween (lit "**Reason:** ") content
  let r := if r0.isEmpty then grabBetween (lit "Reason:") content else r0
  (nm, d, r)

-- ======================= Finance command branches =======================

/-- `/recordinvoice`. -/
def recordInvoiceCommand (cfg : Config) (ext : Ext) (p : Payload) : Resp × List Effect :=
  if !(channel_allowed cfg (lit "recordinvoice") p.channelId) then
    (deny_wrong_channel cfg (lit "recordinvoice"), [])
  else
    let company := get_opt p.options (lit "companyname")
    let invNo := get_opt p.options (lit "invoicenumber")
    let invVal := get_opt p.options (lit "invoicevalue")
    let comments := get_opt p.options (lit "comments")
    if company.isEmpty || invNo.isEmpty || invVal.isEmpty then
      (discord_response_message
        (lit "❌ Missing fields. Required: CompanyName, InvoiceNumber, InvoiceValue.") true, [])
    else if !ext.appendOk then
      (discord_response_message (lit "❌ Failed to record invoice. " ++ ext.excText) true, [])
    else
      (discord_response_message
        (lit "✅ Invoice **" ++ invNo ++ lit "** recorded for **" ++ company ++
          lit "** (₹" ++ moneyFmt (to_number (.str invVal)) ++ lit ").") true,
       [Effect.sheetAppend INVOICES_RANGE
          [.str ext.nowTs, .str company, .str invNo, .num (to_number (.str invVal)),
           .str comments]])

/-- `/clearinvoice`. -/
def clearInvoiceCommand (cfg : Config) (ext : Ext) (p : Payload) : Resp × List Effect :=
  if !(channel_allowed cfg (lit "clearinvoice") p.channelId) then
    (deny_wrong_channel cfg (lit "clearinvoice"), [])
  else
    let invNo := get_opt p.options (lit "invoicenumber")
    let cleared := get_opt p.options (lit "valuecleared")
    let comments := get_opt p.options (lit "comments")
    if invNo.isEmpty || cleared.isEmpty then
      (discord_response_message
        (lit "❌ Missing fields. Required: InvoiceNumber, ValueCleared.") true, [])
    else if !ext.appendOk then
      (discord_response_message (lit "❌ Failed to record clearance. " ++ ext.excText) true, [])
    else
      (discord_response_message
        (lit "✅ Recorded ₹" ++ moneyFmt (to_number (.str cleared)) ++
          lit " cleared for **" ++ invNo ++ lit "**.") true,
       [Effect.sheetAppend INVOICE_CLEARS_RANGE
          [.str ext.nowTs, .str invNo, .num (to_number (.str cleared)), .str comments]])

/-- `/viewinvoice`: read-only listing (first ten rows with outstanding). -/
def viewInvoiceCommand (cfg : Config) (ext : Ext) (st : SheetData) (p : Payload) :
    Resp × List Effect :=
  if !(channel_allowed cfg (lit "viewinvoice") p.channelId) then
    (deny_wrong_channel cfg (lit "viewinvoice"), [])
  else if !ext.readOk then
    (discord_response_message (lit "❌ Could not load invoices. " ++ ext.excText) true, [])
  else
    let totals := totals_by_invoice st.invoices
    let cleared := cleared_by_invoice st.invoiceClears
    let rows := (headerSkip st.invoices 4 3).filterMap (fun r =>
      if r.length < 4 then none
      else some (cellStr (rowCell r 0), cellStr (rowCell r 1), cellStr (rowCell r 2),
        to_number (rowCell r 3)))
    let lines := (rows.take 10).enum.map (fun e =>
      let t := e.2
      let out := max (alGetD t.2.2.1 totals 0 - alGetD t.2.2.1 cleared 0) 0
      natStr (e.1 + 1) ++ lit ". **" ++ t.2.2.1 ++ lit "** — " ++ t.2.1 ++ lit " • ₹" ++
        moneyFmt t.2.2.2 ++ lit " • Outst.: ₹" ++ moneyFmt out)
    let extra := if 10 < rows.length then
        lit "\n…plus " ++ natStr (rows.length - 10) ++ lit " more."
      else []
    let body := if lines.isEmpty then lit "No invoices found." else joinSep (lit "\n") lines
    (discord_response_message (lit "🧾 **Invoices**\n" ++ body ++ extra) true, [])

/-- `/viewfinstatus`. -/
def viewFinStatusCommand (cfg : Config) (ext : Ext) (st : SheetData) (p : Payload) :
    Resp × List Effect :=
  if !(channel_allowed cfg (lit "viewfinstatus") p.channelId) then
    (deny_wrong_channel cfg (lit "viewfinstatus"), [])
  else if !ext.readOk then
    (discord_response_message (lit "❌ Could not compute status. " ++ ext.excText) true, [])
  else
    let fs := compute_fin_status st
    let taxesSorted := sortLe (fun a b => strLe a.1 b.1) fs.2.2.2.1
    let taxLines := taxesSorted.map (fun kv => lit "• " ++ kv.1 ++ lit ": ₹" ++ moneyFmt kv.2)
    let taxLines := if taxLines.isEmpty then [lit "• (none)"] else taxLines
    (discord_response_message
      (lit "💼 **Finance Status**\n• Total Invoiced: **₹" ++ moneyFmt fs.1 ++
        lit "**\n• Total Cleared: **₹" ++ moneyFmt fs.2.1 ++
        lit "**\n• Outstanding: **₹" ++ moneyFmt fs.2.2.1 ++
        lit "**\n\n🧾 **Taxes recorded (by type)**\n" ++ joinSep (lit "\n") taxLines) true, [])

/-- `/recordtax`. -/
def recordTaxCommand (cfg : Config) (ext : Ext) (p : Payload) : Resp × List Effect :=
  if !(channel_allowed cfg (lit "recordtax") p.channelId) then
    (deny_wrong_channel cfg (lit "recordtax"), [])
  else
    let invNo := get_opt p.options (lit "invoicenumber")
    let taxType := get_opt p.options (lit "taxtype")
    let taxVal := get_opt p.options (lit "taxvalue")
    let comments := get_opt p.options (lit "comments")
    if invNo.isEmpty || taxType.isEmpty || taxVal.isEmpty then
      (discord_response_message
        (lit "❌ Missing fields. Required: InvoiceNumber, TaxType, TaxValue.") true, [])
    else if !ext.appendOk then
      (discord_response_message (lit "❌ Failed to record tax. " ++ ext.excText) true, [])
    else
      (discord_response_message
        (lit "✅ Tax recorded for **" ++ invNo ++ lit "** — " ++ taxType ++ lit " ₹" ++
          moneyFmt (to_number (.str taxVal)) ++ lit ".") true,
       [Effect.sheetAppend TAXES_RANGE
          [.str ext.nowTs, .str invNo, .str taxType, .num (to_number (.str taxVal)),
           .str comments]])

-- ======================= Content / asset command branches =======================

/-- `/contentrequest`: validate topic+file, then post the review card. -/
def contentRequestCommand (cfg : Config) (ext : Ext) (p : Payload) : Resp × List Effect :=
  if !(channel_allowed cfg (lit "contentrequest") p.channelId) then
    (deny_wrong_channel cfg (lit "contentrequest"), [])
  else
    let topic := getOptExact p.options (lit "topic")
    match getAttachment p (lit "files") with
    | none =>
      (discord_response_message (lit "❌ Provide a **topic** and attach a **file**.") true, [])
    | some att =>
      if topic.isEmpty then
        (discord_response_message (lit "❌ Provide a **topic** and attach a **file**.") true, [])
      else if cfg.botToken.isEmpty || cfg.contentRequestsChannelId.isEmpty then
        (discord_response_message (lit "❌ Server not configured for content requests.") true, [])
      else
        let content := lit "📝 **Content Request from " ++ p.userName ++
          lit "**\n📌 **Topic:** " ++ topic ++ lit "\n📎 **File:** [" ++ att.1 ++
          lit "](" ++ att.2 ++ lit ")\n\nPlease review and respond."
        if !ext.postOk then
          (discord_response_message
            (lit "❌ Could not post to content-requests. " ++ ext.excText) true, [])
        else
          (discord_response_message (lit "✅ Sent to **#content-requests** for review.") true,
           [Effect.chanPost cfg.contentRequestsChannelId content])

/-- `/assetreview`. -/
def assetReviewCommand (cfg : Config) (ext : Ext) (p : Payload) : Resp × List Effect :=
  if !(channel_allowed cfg (lit "assetreview") p.channelId) then
    (deny_wrong_channel cfg (lit "assetreview"), [])
  else
    let assetName := getOptExact p.options (lit "name")
    match getAttachment p (lit "file") with
    | none =>
      (discord_response_message (lit "❌ Provide **name** and attach a **file**.") true, [])
    | some att =>
      if assetName.isEmpty then
        (discord_response_message (lit "❌ Provide **name** and attach a **file**.") true, [])
      else if cfg.botToken.isEmpty || cfg.assetsReviewsChannelId.isEmpty then
        (discord_response_message (lit "❌ Server not configured for asset reviews.") true, [])
      else
        let content := lit "🧪 **Asset Review Request from " ++ p.userName ++
          lit "**\n🏷️ **Name:** " ++ assetName ++ lit "\n📎 **File:** [" ++ att.1 ++
          lit "](" ++ att.2 ++ lit ")\n\nPlease review and respond."
        if !ext.postOk then
          (discord_response_message
            (lit "❌ Could not post to assets-reviews. " ++ ext.excText) true, [])
        else
          (discord_response_message
            (lit "✅ Sent to **#assets-reviews** for verification.") true,
           [Effect.chanPost cfg.assetsReviewsChannelId content])

-- ======================= Leave / WFH command branches =======================

/-- `_parse_ymd`. -/
def parse_ymd (s : Str) : Option CivilDate := parseYmd (strip s)

/-- One entry of the `/leavecount` table scan: `(from, to, days)` when the
    decision row is an approved leave of the target user overlapping the
    current month. -/
def leaveCountEntry (target : Str) (mstart mend : CivilDate) (r : List Cell) :
    Option (CivilDate × CivilDate × ℤ) :=
  if r.length < 8 then none
  else
    let nm := rowStr r 1
    let dec := pyLower (rowStr r 5)
    let fromStr := rowStr r 2
    let toStr := rowStr r 3
    let daysVal := to_int (rowCell r 7) 0
    if nm.isEmpty || dec ≠ lit "approved" then none
    else if pyLower nm ≠ pyLower target then none
    else
      match parse_ymd fromStr, parse_ymd toStr with
      | some f0, some t0 =>
        let f := if dateLE f0 t0 then f0 else t0
        let t := if dateLE f0 t0 then t0 else f0
        if dateLE t mstart ∧ t ≠ mstart then none
        else if dateLE mend f ∧ f ≠ mend then none
        else some (f, t, daysVal)
      | _, _ => none

/-- Header detection of the leave-decision rows (`"name" in hdr[1]` or
    `"decision" in hdr[5]`). -/
def leaveDecisionsStart (rows : List (List Cell)) : List (List Cell) :=
  match rows with
  | [] => []
  | r0 :: rest =>
    if !r0.isEmpty &&
        (containsSub (lit "name") (pyLower (cellStr (rowCell r0 1))) ||
         containsSub (lit "decision") (pyLower (cellStr (rowCell r0 5)))) then rest
    else r0 :: rest

/-- `/leavecount`. -/
def leaveCountCommand (cfg : Config) (ext : Ext) (st : SheetData) (p : Payload) :
    Resp × List Effect :=
  if !(channel_allowed cfg (lit "leavecount") p.channelId) then
    (deny_wrong_channel cfg (lit "leavecount"), [])
  else
    let explicitName := getOptExact p.options (lit "name")
    let target := strip (if explicitName.isEmpty then p.userName else explicitName)
    if !ext.readOk then
      (discord_response_message (lit "❌ Could not read leave data. " ++ ext.excText) true, [])
    else
      let b := month_bounds_ist ext
      let items := (leaveDecisionsStart st.leaveDecisions).filterMap
        (leaveCountEntry target b.1 b.2)
      let totalDays := (items.map (fun e => max e.2.2 0)).sum
      if items.isEmpty then
        (discord_response_message
          (lit "📊 **Approved leaves in " ++ ext.monthLabel ++ lit "** for **" ++ target ++
            lit "**\n(No entries)\n**Total days:** 0") true, [])
      else
        let lines := items.enum.map (fun e =>
          natStr (e.1 + 1) ++ lit ". " ++ isoDate e.2.1 ++ lit " → " ++ isoDate e.2.2.1 ++
            lit " — " ++ intStr e.2.2.2 ++ lit " day" ++
            (if e.2.2.2 = 1 then [] else ['s']))
        (discord_response_message
          (lit "📊 **Approved leaves in " ++ ext.monthLabel ++ lit "** for **" ++ target ++
            lit "**\n" ++ joinSep (lit "\n") lines ++ lit "\n\n**Total days:** " ++
            intStr totalDays) true, [])

/-- The approver-notification step shared by `/leaverequest` and the
    `leave_reason::` modal: post the card to the approver channel, else DM the
    approver, else post to the invoking channel.  Returns `none` when some
    call in the step raised (after possibly no effect), else the effects. -/
def notifyApprover (cfg : Config) (ext : Ext) (fallbackCid content : Str) :
    Option (List Effect) :=
  if !cfg.approverChannelId.isEmpty then
    if ext.postOk then some [Effect.chanPost cfg.approverChannelId content] else none
  else if !cfg.approverUserId.isEmpty then
    match ext.dmChannelOf cfg.approverUserId with
    | some dmCh => if ext.postOk then some [Effect.chanPost dmCh content] else none
    | none => none
  else if fallbackCid.isEmpty then none
  else if ext.postOk then some [Effect.chanPost fallbackCid content] else none

/-- `/leaverequest`.  The approver notification sits *inside* the same
    `try` as the sheet append: if it raises, the branch answers with the
    "Failed to record leave" error even though the append succeeded. -/
def leaverequestCommand (cfg : Config) (ext : Ext) (p : Payload) : Resp × List Effect :=
  if !(channel_allowed cfg (lit "leaverequest") p.channelId) then
    (deny_wrong_channel cfg (lit "leaverequest"), [])
  else
    let fromOpt := getOptExact p.options (lit "from")
    let toOpt := getOptExact p.options (lit "to")
    let reasonOpt := getOptExact p.options (lit "reason")
    let daysOpt := get_opt p.options (lit "days")
    if fromOpt.isEmpty || toOpt.isEmpty then
      -- date-picker flow; `send_leave_from_picker` raises unguarded on a failed post
      if cfg.botToken.isEmpty || p.channelId.isEmpty then
        (discord_response_message
          (lit "🗓️ I posted a **From date** picker. Choose From first; I’ll then show valid **To** dates.")
          true, [])
      else if !ext.postOk then (Resp.serverError, [])
      else
        (discord_response_message
          (lit "🗓️ I posted a **From date** picker. Choose From first; I’ll then show valid **To** dates.")
          true,
         [Effect.chanPost p.channelId (lit "📅 Pick the **start** date for your leave:")])
    else
      let days := to_int (.str daysOpt) 0
      if days ≤ 0 then
        (discord_response_message
          (lit "❌ Please provide a valid **days** (integer ≥ 1).") true, [])
      else if !ext.appendOk then
        (discord_response_message (lit "❌ Failed to record leave. " ++ ext.excText) true, [])
      else
        let appendEff := Effect.sheetAppend LEAVE_REQUESTS_RANGE
          [.str ext.nowTs, .str p.userName, .str fromOpt, .str daysOpt, .str toOpt,
           .str reasonOpt]
        let success := discord_response_message
          (lit "✅ Leave request submitted by **" ++ p.userName ++ lit "** from **" ++
            fromOpt ++ lit "** to **" ++ toOpt ++ lit "**.\nReason: " ++
            (if reasonOpt.isEmpty then lit "(not provided)" else reasonOpt)) true
        if cfg.botToken.isEmpty then (success, [appendEff])
        else
          let card := leaveCardContent p.userName fromOpt toOpt days reasonOpt
          match notifyApprover cfg ext p.channelId card with
          | some effs => (success, appendEff :: effs)
          | none =>
            (discord_response_message (lit "❌ Failed to record leave. " ++ ext.excText) true,
             [appendEff])

/-- `/wfh`.  Unlike `/leaverequest`, the approver notification sits in its
    own `try/except` that only logs: a failed notification never changes
    the success acknowledgement. -/
def wfhCommand (cfg : Config) (ext : Ext) (p : Payload) : Resp × List Effect :=
  if !(channel_allowed cfg (lit "wfh") p.channelId) then
    (deny_wrong_channel cfg (lit "wfh"), [])
  else
    let day := getOptExact p.options (lit "date")
    let reason := getOptExact p.options (lit "reason")
    if day.isEmpty then
      -- date-picker flow; `send_wfh_date_picker` raises unguarded on a failed post
      if cfg.botToken.isEmpty || p.channelId.isEmpty then
        (discord_response_message
          (lit "🗓️ Choose a date from the picker I just posted (or use the autocomplete).")
          true, [])
      else if !ext.postOk then (Resp.serverError, [])
      else
        (discord_response_message
          (lit "🗓️ Choose a date from the picker I just posted (or use the autocomplete).")
          true,
         [Effect.chanPost p.channelId (lit "Pick a date for your WFH request:")])
    else if !ext.appendOk then
      (discord_response_message (lit "❌ Failed to record WFH request. " ++ ext.excText) true, [])
    else
      let appendEff := Effect.sheetAppend WFH_REQUESTS_RANGE
        [.str ext.nowTs, .str p.userName, .str day, .str reason]
      let notifyEffs :=
        if cfg.botToken.isEmpty then []
        else
          match notifyApprover cfg ext p.channelId (wfhCardContent p.userName day reason) with
          | some effs => effs
          | none => []   -- "⚠️ Could not notify approver for WFH" — logged only
      (discord_response_message
        (lit "✅ WFH request submitted for **" ++ day ++ lit "**.\nReason: " ++
          (if reason.isEmpty then lit "(not provided)" else reason)) true,
       appendEff :: notifyEffs)

-- ======================= Meet command branches =======================

/-- Bare-code shape `xxx-xxxx-xxx` (letters only). -/
def meetCodeShape (s : Str) : Bool :=
  match splitOnChar '-' s with
  | [a, b, c] =>
    decide (a.length = 3) && decide (b.length = 4) && decide (c.length = 3) &&
      (a ++ b ++ c).all (fun ch => ch.isAlpha)
  | _ => false

/-- `extract_meet_code`: full link or bare code, normalised to lowercase;
    the optional-scheme URL regex is modelled for the `meet.google.com/`
    forms without a query string. -/
def extract_meet_code (s0 : Str) : Str :=
  let s := strip s0
  let core :=
    if (lit "https://meet.google.com/").isPrefixOf s then s.drop 24
    else if (lit "http://meet.google.com/").isPrefixOf s then s.drop 23
    else if (lit "meet.google.com/").isPrefixOf s then s.drop 16
    else s
  if meetCodeShape core then pyLower core else []

/-- `/schedulemeet`.  Its guard consults `CMD_ALLOWED_CHANNELS`, which has
    no `"schedulemeet"` entry. -/
def scheduleMeetCommand (cfg : Config) (ext : Ext) (p : Payload) : Resp × List Effect :=
  if !(channel_allowed cfg (lit "schedulemeet") p.channelId) then
    (deny_wrong_channel cfg (lit "schedulemeet"), [])
  else
    let title := getOptExact p.options (lit "title")
    let startStr := getOptExact p.options (lit "start")
    let endStr := getOptExact p.options (lit "end")
    if title.isEmpty || startStr.isEmpty || endStr.isEmpty then
      (discord_response_message (lit "❌ Missing required fields (title/start/end).") true, [])
    else if !ext.calendarOk then
      (discord_response_message (lit "❌ Failed to schedule meet. " ++ ext.excText) true, [])
    else
      (discord_response_message
        (lit "✅ **Google Meet Scheduled!**\n📅 **" ++ title ++ lit "**\n🕒 " ++ startStr ++
          lit " → " ++ endStr ++ lit "\n🔗 " ++ ext.meetLink) false,
       [Effect.calendarInsert title startStr endStr])

/-- `/auditmeet` (its channel guard is a no-op `pass` in the source). -/
def auditMeetCommand (cfg : Config) (ext : Ext) (p : Payload) : Resp × List Effect :=
  let meetlink := get_opt p.options (lit "meetlink")
  let code := extract_meet_code meetlink
  if code.isEmpty then
    (discord_response_message
      (lit "❌ Please provide a valid Google Meet link or code (e.g., https://meet.google.com/abc-defg-hij).")
      true, [])
  else if !ext.reportsOk then
    (discord_response_message (lit "❌ Could not audit Meet. " ++ ext.excText) true, [])
  else if ext.meetEmails.isEmpty then
    (discord_response_message
      (lit "ℹ️ No attendees found for meeting `" ++ code ++ lit "` in the last 72h window.")
      true, [])
  else
    let lines := ext.meetEmails.enum.map (fun e => natStr (e.1 + 1) ++ lit ". " ++ e.2)
    (discord_response_message
      (lit "👥 **Meet attendance (unique emails)**\n🧩 Code: `" ++ code ++
        lit "`  •  ⏱️ Window: last 72h\n\n" ++ joinSep (lit "\n") lines) true, [])

-- ======================= Command dispatcher =======================

/-- The `APPLICATION_COMMAND` (`type == 2`) dispatcher, branch order as in
    the source. -/
def handleCommand (cfg : Config) (ext : Ext) (st : SheetData) (p : Payload) :
    Resp × List Effect :=
  if p.cmdName = lit "attendance" then
    attendanceCommand cfg ext st p.channelId p.userId p.userName
  else if p.cmdName = lit "contentrequest" then contentRequestCommand cfg ext p
  else if p.cmdName = lit "recordinvoice" then recordInvoiceCommand cfg ext p
  else if p.cmdName = lit "clearinvoice" then clearInvoiceCommand cfg ext p
  else if p.cmdName = lit "viewinvoice" then viewInvoiceCommand cfg ext st p
  else if p.cmdName = lit "viewfinstatus" then viewFinStatusCommand cfg ext st p
  else if p.cmdName = lit "recordtax" then recordTaxCommand cfg ext p
  else if p.cmdName = lit "assetreview" then assetReviewCommand cfg ext p
  else if p.cmdName = lit "leavecount" then leaveCountCommand cfg ext st p
  else if p.cmdName = lit "leaverequest" then leaverequestCommand cfg ext p
  else if p.cmdName = lit "wfh" then wfhCommand cfg ext p
  else if p.cmdName = lit "schedulemeet" then scheduleMeetCommand cfg ext p
  else if p.cmdName = lit "auditmeet" then auditMeetCommand cfg ext p
  else (discord_response_message (lit "Unknown command.") true, [])

-- ======================= Status broadcasts =======================

def leaveStatusContent (ext : Ext) (nm fromS toS reason decision reviewer : Str) : Str :=
  (if pyLower decision = lit "approved" then lit "✅" else lit "❌") ++
  lit " **Leave " ++ decision ++ lit "**\n👤 **Employee:** " ++ nm ++
  lit "\n🗓️ **From:** " ++ fromS ++ lit "\n🗓️ **To:** " ++ toS ++
  lit "\n💬 **Reason:** " ++ reason ++ lit "\n🧑‍💼 **Reviewer:** " ++ reviewer ++
  lit " — **" ++ ext.nowTs ++ lit " IST**"

/-- `post_leave_status_update` (internally caught: best-effort). -/
def post_leave_status_update (cfg : Config) (ext : Ext)
    (nm fromS toS reason decision reviewer fallbackCid : Str) : List Effect :=
  let cid := if !cfg.leaveStatusChannelId.isEmpty then cfg.leaveStatusChannelId
    else if !cfg.approverChannelId.isEmpty then cfg.approverChannelId else fallbackCid
  if cfg.botToken.isEmpty || cid.isEmpty then []
  else if ext.postOk then
    [Effect.chanPost cid (leaveStatusContent ext nm fromS toS reason decision reviewer)]
  else []

def wfhStatusContent (ext : Ext) (nm day reason decision reviewer : Str) : Str :=
  (if pyLower decision = lit "approved" then lit "🏠✅" else lit "🏠❌") ++
  lit " **WFH " ++ decision ++ lit "**\n👤 **Employee:** " ++ nm ++
  lit "\n📅 **Date:** " ++ day ++ lit "\n💬 **Reason:** " ++ reason ++
  lit "\n🧑‍💼 **Reviewer:** " ++ reviewer ++ lit " — **" ++ ext.nowTs ++ lit " IST**"

/-- `post_wfh_status_update` (internally caught: best-effort). -/
def post_wfh_status_update (cfg : Config) (ext : Ext)
    (nm day reason decision reviewer fallbackCid : Str) : List Effect :=
  let cid := if !cfg.leaveStatusChannelId.isEmpty then cfg.leaveStatusChannelId
    else if !cfg.approverChannelId.isEmpty then cfg.approverChannelId else fallbackCid
  if cfg.botToken.isEmpty || cid.isEmpty then []
  else if ext.postOk then
    [Effect.chanPost cid (wfhStatusContent ext nm day reason decision reviewer)]
  else []

/-- `_post_to_channel` (internally caught: best-effort). -/
def post_to_channel_bestEffort (cfg : Config) (ext : Ext) (cid content : Str) : List Effect :=
  if cfg.botToken.isEmpty || cid.isEmpty || content.isEmpty then []
  else if ext.postOk then [Effect.chanPost cid content] else []

-- ======================= Content / asset card parsers =======================

/-- `_md_link_parts`: the first Markdown `[label](url)` in a line. -/
def mdLink : Str → Option (Str × Str)
  | [] => none
  | '[' :: t =>
    let label := t.takeWhile (fun c => c ≠ ']')
    (match t.dropWhile (fun c => c ≠ ']') with
     | ']' :: '(' :: t2 =>
       let url := t2.takeWhile (fun c => c ≠ ')')
       (match t2.dropWhile (fun c => c ≠ ')') with
        | ')' :: _ =>
          if !label.isEmpty && !url.isEmpty then some (label, url) else mdLink t
        | _ => mdLink t)
     | _ => mdLink t)
  | _ :: t => mdLink t

def md_link_parts (line : Str) : Str × Str := (mdLink line).getD ([], [])

def contentMarkers : List Str :=
  [lit "**Content Request from ", lit "Content Request from ",
   lit "📝 **Content Request from "]

def assetMarkers : List Str :=
  [lit "**Asset Review Request from ", lit "Asset Review Request from ",
   lit "🧪 **Asset Review Request from "]

/-- `parse_content_request_card`. -/
def parse_content_request_card (content : Str) : Str × Str × Str × Str :=
  let requester := strip (pyStrip isStarSpace (stripReqMarker contentMarkers (strip (firstLine content))))
  let topic0 := grabBetween (lit "**Topic:** ") content
  let topic := if topic0.isEmpty then grabBetween (lit "Topic:") content else topic0
  let fileLine0 := grabBetween (lit "**File:** ") content
  let fileLine := if fileLine0.isEmpty then grabBetween (lit "File:") content else fileLine0
  let fu := md_link_parts fileLine
  (requester, topic, fu.1, fu.2)

/-- `parse_asset_review_card`. -/
def parse_asset_review_card (content : Str) : Str × Str × Str × Str :=
  let requester := strip (pyStrip isStarSpace (stripReqMarker assetMarkers (strip (firstLine content))))
  let nm0 := grabBetween (lit "**Name:** ") content
  let nm := if nm0.isEmpty then grabBetween (lit "Name:") content else nm0
  let fileLine0 := grabBetween (lit "**File:** ") content
  let fileLine := if fileLine0.isEmpty then grabBetween (lit "File:") content else fileLine0
  let fu := md_link_parts fileLine
  (requester, nm, fu.1, fu.2)

-- ======================= Autocomplete branch =======================

/-- The invoice autocomplete label before its 100-character truncation. -/
def invoiceLabel (e : InvEntry) : Str :=
  e.invNo ++ lit " — " ++ e.company ++ lit " (Out: ₹" ++ moneyFmt e.outstanding ++
    lit ", Clr: ₹" ++ moneyFmt e.cleared ++ lit ")"

/-- The `/leavecount` name-choice loop: filter by the typed query, truncate
    each label to 100 characters, stop once 25 choices are collected. -/
def buildChoicesLC (q : Str) : List (Str × Str) → List Choice → List Choice
  | [], acc => acc
  | (disp, val) :: rest, acc =>
    if !q.isEmpty && !(containsSub q (pyLower disp)) then buildChoicesLC q rest acc
    else
      let acc' := acc ++ [⟨disp.take 100, val⟩]
      if 25 ≤ acc'.length then acc'
      else buildChoicesLC q rest acc'

/-- The `APPLICATION_COMMAND_AUTOCOMPLETE` (`type == 4`) branch.  The sheet
    reads of the first two cases are unguarded in the source: a raised read
    escapes as a server error. -/
def autocompleteBranch (cfg : Config) (ext : Ext) (st : SheetData) (p : Payload) :
    Resp × List Effect :=
  match p.options.find? (fun o => o.focused) with
  | none => (Resp.autocomplete [], [])
  | some f =>
    if p.cmdName = lit "leavecount" ∧ f.name = lit "name" then
      if !ext.readOk then (Resp.serverError, [])
      else
        let q := pyLower (strip f.value)
        (Resp.autocomplete
          (buildChoicesLC q (list_attendance_employees_current_month ext st.attendance) []),
         [])
    else if (p.cmdName = lit "clearinvoice" ∨ p.cmdName = lit "recordtax") ∧
        f.name = lit "invoicenumber" then
      if !ext.readOk then (Resp.serverError, [])
      else
        let rows := list_invoices_for_autocomplete (strip f.value) st.invoices st.invoiceClears
        (Resp.autocomplete (rows.map (fun e => ⟨(invoiceLabel e).take 100, e.invNo⟩)), [])
    else if p.cmdName = lit "wfh" ∧ f.name = lit "date" then
      (Resp.autocomplete ((List.range 14).map (fun i : ℕ =>
        ⟨dateLabel (ext.todayZ + (i : ℤ)),
         isoDate (civilFromDays (ext.todayZ + (i : ℤ)))⟩)), [])
    else if p.cmdName = lit "leaverequest" then
      if !(channel_allowed cfg (lit "leaverequest") p.channelId) then
        (Resp.autocomplete [], [])
      else if f.name = lit "from" then
        (Resp.autocomplete ((List.range 25).map (fun i : ℕ =>
          ⟨dateLabel (ext.todayZ + (i : ℤ)),
           isoDate (civilFromDays (ext.todayZ + (i : ℤ)))⟩)), [])
      else if f.name = lit "to" then
        let fromStr :=
          strip (((p.options.reverse.find? (fun o => o.name = lit "from")).map (·.value)).getD [])
        let startZ :=
          if fromStr.isEmpty then ext.todayZ
          else
            match parseYmd fromStr with
            | some d => daysFromCivil d.year d.month d.day
            | none => ext.todayZ
        (Resp.autocomplete ((List.range 25).map (fun i : ℕ =>
          ⟨dateLabel (startZ + (i : ℤ)), isoDate (civilFromDays (startZ + (i : ℤ)))⟩)), [])
      else (Resp.autocomplete [], [])
    else (Resp.autocomplete [], [])

-- ======================= Component branch (type == 3) =======================

/-- The `MESSAGE_COMPONENT` branch: date selects, leave/WFH approve-reject
    buttons, content/asset review buttons. -/
def componentBranch (cfg : Config) (ext : Ext) (p : Payload) : Resp × List Effect :=
  let customId := p.customId
  let content := p.messageContent
  let reviewer := strip p.userName
  if customId = lit "wfh_date_select" then
    let picked := p.selectValues.getD 0 []
    if picked.isEmpty then
      (discord_response_message (lit "❌ No date selected.") true, [])
    else
      (discord_response_message (lit "✅ Selected WFH date: **" ++ picked ++ lit "**") true, [])
  else if customId = lit "leave_approve" then
    let pc := parse_leave_card content
    if pc.1.isEmpty || pc.2.1.isEmpty || pc.2.2.1.isEmpty then
      (discord_response_message (lit "❌ Could not parse the request details.") true, [])
    else if !ext.appendOk then
      (discord_response_message (lit "❌ Failed to record decision. " ++ ext.excText) true, [])
    else
      (Resp.update (content ++ lit "\n\n**Status:** Approved by **" ++ reviewer ++
          lit "** at **" ++ ext.nowTs ++ lit " IST**"),
       Effect.sheetAppend LEAVE_DECISIONS_RANGE
           [.str ext.nowTs, .str pc.1, .str pc.2.1, .str pc.2.2.1, .str pc.2.2.2.1,
            .str (lit "Approved"), .str reviewer, .num (pc.2.2.2.2 : ℚ)] ::
         post_leave_status_update cfg ext pc.1 pc.2.1 pc.2.2.1 pc.2.2.2.1
           (lit "Approved") reviewer p.channelId)
  else if customId = lit "leave_reject" then
    (Resp.modal (lit "reject_reason::" ++ p.channelId ++ lit "::" ++ p.messageId)
      (lit "Reject Leave"), [])
  else if customId = lit "leave_from_select" then
    let fromDate := p.selectValues.getD 0 []
    if fromDate.isEmpty then
      (discord_response_message (lit "❌ No start date selected.") true, [])
    else
      -- `datetime.strptime(from_date, "%Y-%m-%d")` is unguarded here
      match parseYmd fromDate with
      | none => (Resp.serverError, [])
      | some _ =>
        (Resp.update (lit "📅 From: **" ++ fromDate ++ lit "**\nNow pick the **end** date:"),
         [])
  else if (lit "leave_to_select::").isPrefixOf customId then
    let fromDate := ((splitFirst (lit "::") customId).map (·.2)).getD []
    let toDate := p.selectValues.getD 0 []
    if toDate.isEmpty then
      (discord_response_message (lit "❌ No end date selected.") true, [])
    else
      (Resp.modal (lit "leave_reason::" ++ fromDate ++ lit "::" ++ toDate)
        (lit "Leave Details"), [])
  else if customId = lit "wfh_approve" ∨ customId = lit "wfh_reject" then
    let pw := parse_wfh_card content
    if pw.1.isEmpty || pw.2.1.isEmpty then
      (discord_response_message (lit "❌ Could not parse WFH request.") true, [])
    else if customId = lit "wfh_approve" then
      if !ext.appendOk then
        (discord_response_message
          (lit "❌ Failed to record WFH decision. " ++ ext.excText) true, [])
      else
        (Resp.update (content ++ lit "\n\n**Status:** Approved by **" ++ reviewer ++
            lit "** at **" ++ ext.nowTs ++ lit " IST**"),
         Effect.sheetAppend WFH_DECISIONS_RANGE
             [.str ext.nowTs, .str pw.1, .str pw.2.1, .str pw.2.2,
              .str (lit "Approved"), .str reviewer, .str []] ::
           post_wfh_status_update cfg ext pw.1 pw.2.1 pw.2.2 (lit "Approved") reviewer
             p.channelId)
    else
      (Resp.modal (lit "wfh_reject_reason::" ++ p.channelId ++ lit "::" ++ p.messageId)
        (lit "Reject WFH"), [])
  else if customId = lit "cr_approve" ∨ customId = lit "cr_reject" then
    (Resp.modal
      ((if customId = lit "cr_approve" then lit "cr_approve_reason" else lit "cr_reject_reason") ++
        lit "::" ++ p.channelId ++ lit "::" ++ p.messageId)
      (if customId = lit "cr_approve" then lit "Approve Content (add improvement notes)"
       else lit "Reject Content (add reason)"), [])
  else if customId = lit "ar_approve" ∨ customId = lit "ar_reject" then
    (Resp.modal
      ((if customId = lit "ar_approve" then lit "ar_approve_reason" else lit "ar_reject_reason") ++
        lit "::" ++ p.channelId ++ lit "::" ++ p.messageId)
      (if customId = lit "ar_approve" then lit "Approve Asset (add improvement notes)"
       else lit "Reject Asset (add reason)"), [])
  else
    (discord_response_message
      (lit "Unsupported action for button id `" ++ customId ++ lit "`.") true, [])

-- ======================= Modal-submit branch (type == 5) =======================

/-- Python `s.split(sep)` (full split), by fuel on the string length. -/
def splitOnSubAux (sep : Str) : ℕ → Str → List Str
  | 0, s => [s]
  | fuel + 1, s =>
    match splitFirst sep s with
    | none => [s]
    | some pr => pr.1 :: splitOnSubAux sep fuel pr.2

def splitOnSub (sep s : Str) : List Str := splitOnSubAux sep s.length s

/-- `(modal_custom_id.split("::") + ["","",""])[:3]` → parts 1 and 2. -/
def modalIdParts (customId : Str) : Str × Str :=
  let parts := splitOnSub (lit "::") customId
  (parts.getD 1 [], parts.getD 2 [])

/-- The `reject_reason::` (leave rejection) modal submit. -/
def leaveRejectModal (cfg : Config) (ext : Ext) (p : Payload) : Resp × List Effect :=
  let parts := modalIdParts p.customId
  let chId := if parts.1.isEmpty then p.channelId else parts.1
  let msgId := parts.2
  if cfg.botToken.isEmpty || chId.isEmpty || msgId.isEmpty then
    (discord_response_message (lit "❌ Missing context to complete rejection.") true, [])
  else
    match ext.fetched with
    | none =>
      (discord_response_message (lit "❌ Could not load original message (404).") true, [])
    | some content =>
      let rejectNote := strip (p.modalValues.getD 0 [])
      let pc := parse_leave_card content
      if !ext.appendOk then
        (discord_response_message (lit "❌ Failed to record decision. " ++ ext.excText) true, [])
      else
        let appendEff := Effect.sheetAppend LEAVE_DECISIONS_RANGE
          [.str ext.nowTs, .str pc.1, .str pc.2.1, .str pc.2.2.1, .str pc.2.2.2.1,
           .str (lit "Rejected"), .str reviewer', .num (pc.2.2.2.2 : ℚ)]
        let newContent := content ++ lit "\n\n**Status:** Rejected by **" ++ reviewer' ++
          lit "** at **" ++ ext.nowTs ++ lit " IST**" ++
          (if rejectNote.isEmpty then [] else lit "\n📝 **Rejection Note:** " ++ rejectNote)
        let editEffs := if ext.editOk then [Effect.msgEdit chId msgId newContent] else []
        let combined := pc.2.2.2.1 ++
          (if rejectNote.isEmpty then [] else lit " | Rejection Note: " ++ rejectNote)
        (discord_response_message (lit "✅ Rejection recorded.") true,
         appendEff :: editEffs ++
           post_leave_status_update cfg ext pc.1 pc.2.1 pc.2.2.1 combined
             (lit "Rejected") reviewer' chId)
where
  reviewer' : Str := strip p.userName

/-- The `cr_*_reason::`/`ar_*_reason::` (content/asset decision) modal
    submits.  The decision-row append is *outside* any `try` in the source:
    a raised append escapes as a server error. -/
def reviewDecisionModal (cfg : Config) (ext : Ext) (p : Payload) (isContent : Bool) :
    Resp × List Effect :=
  let parts := modalIdParts p.customId
  let chId := parts.1
  let msgId := parts.2
  let comment := strip (p.modalValues.getD 0 [])
  if cfg.botToken.isEmpty || chId.isEmpty || msgId.isEmpty then
    (discord_response_message (lit "❌ Missing context.") true, [])
  else
    match ext.fetched with
    | none =>
      (discord_response_message (lit "❌ Could not load message (404).") true, [])
    | some content =>
      let approve := ((if isContent then lit "cr_approve_reason::"
        else lit "ar_approve_reason::") : Str).isPrefixOf p.customId
      let decision : Str := if approve then lit "Approved" else lit "Rejected"
      let newContent := content ++ lit "\n\n**Status:** " ++ decision ++ lit " by **" ++
        strip p.userName ++ lit "** at **" ++ ext.nowTs ++ lit " IST**" ++
        (if comment.isEmpty then [] else lit "\n📝 **Comments:** " ++ comment)
      let editEffs := if ext.editOk then [Effect.msgEdit chId msgId newContent] else []
      if !ext.appendOk then (Resp.serverError, editEffs)
      else
        let parsed4 :=
          if isContent then parse_content_request_card content else parse_asset_review_card content
        let appendEff := Effect.sheetAppend
          (if isContent then lit "'Content Decisions'!A:H" else lit "'Asset Decisions'!A:H")
          [.str ext.nowTs, .str decision, .str (strip p.userName), .str parsed4.1,
           .str parsed4.2.1, .str parsed4.2.2.1, .str parsed4.2.2.2, .str comment]
        let teamMsg :=
          (if isContent then lit "📣 **Content Request Decision**\n🧑‍💼 **Reviewer:** "
           else lit "📣 **Asset Review Decision**\n🧑‍💼 **Reviewer:** ") ++
          strip p.userName ++ lit "\n✅❌ **Decision:** " ++ decision ++
          (if comment.isEmpty then [] else lit "\n📝 **Comments:** " ++ comment) ++
          lit "\n👤 **Requester:** " ++ parsed4.1 ++
          (if isContent then lit "\n📌 **Topic:** " else lit "\n🏷️ **Asset:** ") ++
          parsed4.2.1 ++ lit "\n📎 **File:** [" ++ parsed4.2.2.1 ++ lit "](" ++
          parsed4.2.2.2 ++ lit ")"
        let teamEffs := if cfg.contentTeamChannelId.isEmpty then []
          else post_to_channel_bestEffort cfg ext cfg.contentTeamChannelId teamMsg
        (discord_response_message (lit "✅ Decision recorded.") true,
         editEffs ++ appendEff :: teamEffs)

/-- The `wfh_reject_reason::` modal submit. -/
def wfhRejectModal (cfg : Config) (ext : Ext) (p : Payload) : Resp × List Effect :=
  let parts := modalIdParts p.customId
  let chId := if parts.1.isEmpty then p.channelId else parts.1
  let msgId := parts.2
  let rejectNote := strip (p.modalValues.getD 0 [])
  if cfg.botToken.isEmpty || chId.isEmpty || msgId.isEmpty then
    (discord_response_message
      (lit "❌ Missing context to complete WFH rejection.") true, [])
  else
    match ext.fetched with
    | none =>
      (discord_response_message (lit "❌ Could not load original WFH message (404).") true, [])
    | some content =>
      let pw := parse_wfh_card content
      if !ext.appendOk then
        (discord_response_message
          (lit "❌ Failed to record WFH rejection. " ++ ext.excText) true, [])
      else
        let appendEff := Effect.sheetAppend WFH_DECISIONS_RANGE
          [.str ext.nowTs, .str pw.1, .str pw.2.1, .str pw.2.2, .str (lit "Rejected"),
           .str (strip p.userName), .str rejectNote]
        let newContent := content ++ lit "\n\n**Status:** Rejected by **" ++
          strip p.userName ++ lit "** at **" ++ ext.nowTs ++ lit " IST**" ++
          (if rejectNote.isEmpty then [] else lit "\n📝 **Rejection Note:** " ++ rejectNote)
        let editEffs := if ext.editOk then [Effect.msgEdit chId msgId newContent] else []
        let combined := pw.2.2 ++
          (if rejectNote.isEmpty then [] else lit " | Rejection Note: " ++ rejectNote)
        (discord_response_message (lit "✅ WFH rejection recorded.") true,
         appendEff :: editEffs ++
           post_wfh_status_update cfg ext pw.1 pw.2.1 combined (lit "Rejected")
             (strip p.userName) chId)

/-- The `leave_reason::` modal submit (end of the picker flow).  Its
    approver notification sits inside the same `try` as the append, like the
    `/leaverequest` command branch. -/
def leaveReasonModal (cfg : Config) (ext : Ext) (p : Payload) : Resp × List Effect :=
  let parts := modalIdParts p.customId
  let fromDate := parts.1
  let toDate := parts.2
  let reasonText := strip (p.modalValues.getD 0 [])
  let daysStr := strip (p.modalValues.getD 1 [])
  let days := to_int (.str daysStr) 0
  if days ≤ 0 then
    (discord_response_message (lit "❌ Please provide a valid **days** (integer ≥ 1).") true, [])
  else if !ext.appendOk then
    (discord_response_message (lit "❌ Failed to record leave. " ++ ext.excText) true, [])
  else
    let appendEff := Effect.sheetAppend LEAVE_REQUESTS_RANGE
      [.str ext.nowTs, .str p.userName, .str fromDate, .num (days : ℚ), .str toDate,
       .str reasonText]
    let success := discord_response_message
      (lit "✅ Leave requested for **" ++ fromDate ++ lit " → " ++ toDate ++ lit "**.") true
    if cfg.botToken.isEmpty then (success, [appendEff])
    else
      let card := leaveCardContent p.userName fromDate toDate days reasonText
      -- same target resolution, but a missing fallback channel is skipped here
      if !cfg.approverChannelId.isEmpty || !cfg.approverUserId.isEmpty || !p.channelId.isEmpty then
        match notifyApprover cfg ext p.channelId card with
        | some effs => (success, appendEff :: effs)
        | none =>
          (discord_response_message (lit "❌ Failed to record leave. " ++ ext.excText) true,
           [appendEff])
      else (success, [appendEff])

/-- The `MODAL_SUBMIT` (`type == 5`) dispatcher. -/
def modalSubmitBranch (cfg : Config) (ext : Ext) (st : SheetData) (p : Payload) :
    Resp × List Effect :=
  if (lit "att_logout_progress::").isPrefixOf p.customId then
    attLogoutModal cfg ext st p.customId p.userId (strip p.userName) p.channelId p.modalValues
  else if (lit "reject_reason::").isPrefixOf p.customId then leaveRejectModal cfg ext p
  else if (lit "cr_approve_reason::").isPrefixOf p.customId ∨
      (lit "cr_reject_reason::").isPrefixOf p.customId then
    reviewDecisionModal cfg ext p true
  else if (lit "ar_approve_reason::").isPrefixOf p.customId ∨
      (lit "ar_reject_reason::").isPrefixOf p.customId then
    reviewDecisionModal cfg ext p false
  else if (lit "wfh_reject_reason::").isPrefixOf p.customId then wfhRejectModal cfg ext p
  else if (lit "leave_reason::").isPrefixOf p.customId then leaveReasonModal cfg ext p
  else (discord_response_message (lit "Unsupported interaction type.") true, [])

-- ======================= The endpoint =======================

/-- One inbound HTTP request: headers, the *raw* body bytes the signature is
    checked over, and the result of `await request.json()` (`none` models a
    parse failure). -/
structure InboundRequest where
  headers : List (Str × Str)
  body : List ℕ
  json : Option Payload

/-- `discord_interaction`: signature check over the raw body (with the
    case-insensitive header fallback), then JSON parse, then dispatch by
    interaction type. -/
def discord_interaction (cfg : Config) (oracle : CryptoOracle) (ext : Ext)
    (st : SheetData) (req : InboundRequest) : Resp × List Effect :=
  let sig := (headerGet req.headers (lit "X-Signature-Ed25519")).getD []
  let ts := (headerGet req.headers (lit "X-Signature-Timestamp")).getD []
  if !verify_signature cfg.discordPublicKey oracle sig ts req.body then
    (Resp.http401, [])
  else
    match req.json with
    | none => (Resp.serverError, [])
    | some p =>
      if p.ptype = 1 then (Resp.pong, [])
      else if p.ptype = 4 then autocompleteBranch cfg ext st p
      else if p.ptype = 2 then handleCommand cfg ext st p
      else if p.ptype = 3 then componentBranch cfg ext p
      else if p.ptype = 5 then modalSubmitBranch cfg ext st p
      else (discord_response_message (lit "Unsupported interaction type.") true, [])

-- ======================= Spec-side observation helpers =======================

/-- The commands `CMD_ALLOWED_CHANNELS` restricts. -/
def restrictedCommands : List Str :=
  [lit "leaverequest", lit "wfh", lit "leavecount", lit "attendance",
   lit "contentrequest", lit "assetreview", lit "recordinvoice", lit "clearinvoice",
   lit "viewinvoice", lit "viewfinstatus", lit "recordtax"]

/-- The action column of each row appended to the attendance range by a
    list of effects. -/
def attAppendActions (effs : List Effect) : List Str :=
  effs.filterMap (fun e =>
    match e with
    | .sheetAppend rng row =>
      if rng = ATTENDANCE_WRITE_RANGE then some (cellStr (rowCell row 2)) else none
    | _ => none)

/-- The choices carried by an autocomplete response (empty otherwise). -/
def respChoices : Resp → List Choice
  | .autocomplete cs => cs
  | _ => []

/-- Sum of the invoiced values carried by rows of invoice number `k`
    (spec-side: "Σ invoiced" per invoice). -/
def invoiceSum (k : Str) (inv : List (List Cell)) : ℚ :=
  (((headerSkip inv 4 3).filter
      (fun r => decide (4 ≤ r.length) && decide (strip (cellStr (rowCell r 2)) = k))).map
    (fun r => to_number (rowCell r 3))).sum

/-- Sum of the cleared values recorded against invoice number `k`
    (spec-side: "Σ cleared" per invoice). -/
def clearedSum (k : Str) (cl : List (List Cell)) : ℚ :=
  (((headerSkip cl 3 2).filter
      (fun r => decide (3 ≤ r.length) && decide (strip (cellStr (rowCell r 1)) = k))).map
    (fun r => to_number (rowCell r 2))).sum

-- ======================= Concrete sample values =======================

/-- A sample fully-populated configuration. -/
def cfgEx : Config :=
  ⟨lit "", lit "SHEET", lit "tok", lit "F", lit "APPR", lit "AU", lit "LS", lit "HR",
   lit "ATT", lit "CRQ", lit "ARV", lit "LRQ", lit "CT"⟩

/-- A sample external-world oracle where every upstream call succeeds. -/
def extEx : Ext :=
  ⟨lit "2025-10-12 09:00:00", lit "2025 10 12-09:00:00", 20373, lit "October 2025",
   true, true, true, true, fun _ => none, true, lit "", lit "RuntimeError: x", true, [],
   none⟩

/-- Empty sheet contents. -/
def stEx : SheetData := ⟨[], [], [], [], []⟩

/-- A configuration for the notifier-failure scenario: an approver channel
    is set, and the leave/WFH commands are invoked from their allowed
    channel. -/
def cfgC7 : Config :=
  ⟨lit "", lit "SHEET", lit "tok", lit "", lit "APPR", lit "", lit "", lit "",
   lit "", lit "", lit "", lit "LRQ", lit ""⟩

/-- An external world where sheet appends succeed but every Discord post
    raises (`requests.post`/`raise_for_status` failing). -/
def extC7 : Ext :=
  ⟨lit "2025-10-12 09:00:00", lit "2025 10 12-09:00:00", 20373, lit "October 2025",
   true, true, false, true, fun _ => none, true, lit "", lit "ConnectionError: boom",
   true, [], none⟩

/-- A `/leaverequest` payload with all fields supplied. -/
def pC7leave : Payload :=
  ⟨2, lit "leaverequest", lit "LRQ", lit "42", lit "Alice",
   [⟨lit "from", lit "2025-03-01", false⟩, ⟨lit "to", lit "2025-03-03", false⟩,
    ⟨lit "days", lit "2", false⟩, ⟨lit "reason", lit "trip", false⟩],
   [], lit "", lit "", lit "", [], []⟩

/-- A `/wfh` payload with all fields supplied. -/
def pC7wfh : Payload :=
  ⟨2, lit "wfh", lit "LRQ", lit "42", lit "Alice",
   [⟨lit "date", lit "2025-03-01", false⟩, ⟨lit "reason", lit "plumber", false⟩],
   [], lit "", lit "", lit "", [], []⟩

/-- Invoice rows: two "INV-1" invoices totalling 1000. -/
def exInvRows : List (List Cell) :=
  [[.str (lit "2025-01-01 10:00:00"), .str (lit "Acme"), .str (lit "INV-1"), .num 600, .str []],
   [.str (lit "2025-01-02 10:00:00"), .str (lit "Acme"), .str (lit "INV-1"), .num 400, .str []]]

/-- Clearance rows totalling 400 against "INV-1". -/
def exClearRows : List (List Cell) :=
  [[.str (lit "2025-01-03 10:00:00"), .str (lit "INV-1"), .num 250, .str []],
   [.str (lit "2025-01-04 10:00:00"), .str (lit "INV-1"), .num 150, .str []]]

/-- A clearance exceeding the invoiced amount. -/
def exOverClearRows : List (List Cell) :=
  [[.str (lit "2025-01-03 10:00:00"), .str (lit "INV-1"), .num 1500, .str []]]

def exSheet (inv cl : List (List Cell)) : SheetData := ⟨[], inv, cl, [], []⟩

-- =====================================================================
-- ============================ THEOREMS ===============================

theorem mismatchB_append_left {q m : Str} (r : Str) (h : mismatchB q m = true) :
    mismatchB (q ++ r) m = true := by
  induction q generalizing m with
  | nil => cases m <;> simp [mismatchB] at h
  | cons a as ih =>
    cases m with
    | nil => simp [mismatchB] at h
    | cons b bs =>
      simp only [mismatchB, Bool.or_eq_true, decide_eq_true_eq] at h ⊢
      rcases h with h | h
      · exact Or.inl h
      · exact Or.inr (ih h)

theorem not_prefix_of_mismatchB {q m : Str} (r : Str) (h : mismatchB q m = true) :
    ¬ m <+: (q ++ r) := by
  induction q generalizing m r with
  | nil => cases m <;> simp [mismatchB] at h
  | cons a as ih =>
    cases m with
    | nil => simp [mismatchB] at h
    | cons b bs =>
      simp only [mismatchB, Bool.or_eq_true, decide_eq_true_eq] at h
      intro hp
      rw [List.cons_append, List.cons_prefix_cons] at hp
      rcases h with h | h
      · exact h hp.1.symm
      · exact ih r h hp.2

theorem noEarlyHit_of_B {m s : Str} (h : noEarlyHitB m s = true) : NoEarlyHit m s := by
  intro q hq hne
  have hmem : q ∈ s.tails := (List.mem_tails q s).2 hq
  have := List.all_eq_true.1 h q hmem
  simp only [Bool.or_eq_true, List.isEmpty_iff] at this
  rcases this with h1 | h1
  · exact absurd h1 hne
  · exact h1

theorem NoEarlyHit.nil (m : Str) : NoEarlyHit m [] := by
  intro q hq hne
  rw [List.suffix_nil] at hq
  exact absurd hq hne

/-- Suffix decomposition across an append. -/
theorem suffix_append_cases {q A B : Str} (h : q <:+ A ++ B) :
    q <:+ B ∨ ∃ qa, qa <:+ A ∧ qa ≠ [] ∧ q = qa ++ B := by
  obtain ⟨t, ht⟩ := h
  rcases le_or_lt q.length B.length with hle | hlt
  · left
    have hq : q = (A ++ B).drop ((A ++ B).length - q.length) :=
      List.suffix_iff_eq_drop.1 ⟨t, ht⟩
    rw [List.length_append] at hq
    have heq : A.length + B.length - q.length = A.length + (B.length - q.length) := by omega
    rw [heq, List.drop_append] at hq
    exact hq ▸ List.drop_suffix _ _
  · right
    have hlen : q.length ≤ (A ++ B).length := List.IsSuffix.length_le ⟨t, ht⟩
    rw [List.length_append] at hlen
    have hq : q = (A ++ B).drop (A.length + B.length - q.length) := by
      have := List.suffix_iff_eq_drop.1 (⟨t, ht⟩ : q <:+ A ++ B)
      rwa [List.length_append] at this
    have hdrop : (A ++ B).drop (A.length + B.length - q.length) =
        A.drop (A.length + B.length - q.length) ++ B :=
      List.drop_append_of_le_length (by omega)
    refine ⟨A.drop (A.length + B.length - q.length), List.drop_suffix _ _, ?_,
      hq.trans hdrop⟩
    intro hnil
    have := congrArg List.length hnil
    simp only [List.length_drop, List.length_nil] at this
    omega

theorem NoEarlyHit.appendConcrete {m A rest : Str} (hA : noEarlyHitB m A = true)
    (hrest : NoEarlyHit m rest) : NoEarlyHit m (A ++ rest) := by
  intro q hq hne
  rcases suffix_append_cases hq with h | ⟨qa, hqa, hqane, rfl⟩
  · exact hrest q h hne
  · have hmem : qa ∈ A.tails := (List.mem_tails qa A).2 hqa
    have := List.all_eq_true.1 hA qa hmem
    simp only [Bool.or_eq_true, List.isEmpty_iff] at this
    rcases this with h1 | h1
    · exact absurd h1 hqane
    · exact mismatchB_append_left rest h1

theorem NoEarlyHit.appendField {mc : Char} {mrest f rest : Str}
    (hf : ∀ c ∈ f, c ≠ mc) (hrest : NoEarlyHit (mc :: mrest) rest) :
    NoEarlyHit (mc :: mrest) (f ++ rest) := by
  intro q hq hne
  rcases suffix_append_cases hq with h | ⟨qa, hqa, hqane, rfl⟩
  · exact hrest q h hne
  · cases qa with
    | nil => exact absurd rfl hqane
    | cons c cs =>
      have hc : c ∈ f := hqa.mem (List.mem_cons_self c cs)
      simp only [List.cons_append, mismatchB, Bool.or_eq_true, decide_eq_true_eq]
      exact Or.inl (hf c hc)

theorem splitFirst_nil (m : Str) : splitFirst m [] = none := rfl

theorem splitFirst_cons (m : Str) (c : Char) (t : Str) :
    splitFirst m (c :: t) =
      if m.isPrefixOf (c :: t) then some ([], (c :: t).drop m.length)
      else (splitFirst m t).map (fun p => (c :: p.1, p.2)) := rfl

theorem splitFirst_of_noEarlyHit {m pre suf : Str} (hm : m ≠ [])
    (h : NoEarlyHit m pre) : splitFirst m (pre ++ m ++ suf) = some (pre, suf) := by
  induction pre with
  | nil =>
    cases m with
    | nil => exact absurd rfl hm
    | cons b bs =>
      have harr : ([] : Str) ++ (b :: bs) ++ suf = b :: (bs ++ suf) := by simp
      rw [harr, splitFirst_cons]
      have hpref : (b :: bs).isPrefixOf (b :: (bs ++ suf)) = true := by
        refine List.isPrefixOf_iff_prefix.2 ?_
        have := List.prefix_append (b :: bs) suf
        simpa using this
      rw [if_pos hpref]
      have hdrop : (b :: (bs ++ suf)).drop (b :: bs).length = suf := by
        have := List.drop_left (b :: bs) suf
        simpa using this
      rw [hdrop]
  | cons c cs ih =>
    have hself : mismatchB (c :: cs) m = true :=
      h (c :: cs) List.suffix_rfl (by simp)
    have hnp : ¬ m.isPrefixOf (c :: (cs ++ m ++ suf)) = true := by
      intro hp
      refine not_prefix_of_mismatchB (m ++ suf) hself ?_
      have := List.isPrefixOf_iff_prefix.1 hp
      simpa using this
    have hrec : NoEarlyHit m cs := by
      intro q hq hne
      exact h q (hq.trans (List.suffix_cons c cs)) hne
    have harr : (c :: cs) ++ m ++ suf = c :: (cs ++ m ++ suf) := by simp
    rw [harr, splitFirst_cons, if_neg hnp, ih hrec]
    rfl

/-- One-character patterns: a field none of whose characters equals the
    pattern character admits no early hit. -/
theorem NoEarlyHit.ofAllNe {mc : Char} {mrest f : Str} (hf : ∀ c ∈ f, c ≠ mc) :
    NoEarlyHit (mc :: mrest) f := by
  have h := @NoEarlyHit.appendField mc mrest f [] hf (NoEarlyHit.nil (mc :: mrest))
  simpa using h

theorem dropWhile_eq_self_of_length {p : Char → Bool} {l : Str}
    (h : (l.dropWhile p).length = l.length) : l.dropWhile p = l := by
  cases l with
  | nil => rfl
  | cons c t =>
    by_cases hc : p c = true
    · exfalso
      rw [List.dropWhile_cons_of_pos hc] at h
      have hst : t.dropWhile p <:+ t := List.dropWhile_suffix p
      have := hst.length_le
      simp at h
      omega
    · rw [List.dropWhile_cons_of_neg hc]

theorem pyStrip_parts {p : Char → Bool} {f : Str} (h : pyStrip p f = f) :
    rstrip p f = f ∧ f.dropWhile p = f := by
  have h1 : (rstrip p f).length ≤ f.length := by
    unfold rstrip
    have hsr : f.reverse.dropWhile p <:+ f.reverse := List.dropWhile_suffix p
    have := hsr.length_le
    simpa using this
  have h2 : ((rstrip p f).dropWhile p).length ≤ (rstrip p f).length :=
    (List.dropWhile_suffix p).length_le
  unfold pyStrip at h
  have h3 : ((rstrip p f).dropWhile p).length = f.length := by rw [h]
  have h4 : (rstrip p f).length = f.length := by omega
  have h5 : rstrip p f = f := by
    unfold rstrip at h4 ⊢
    have hlen : (f.reverse.dropWhile p).length = f.reverse.length := by
      have := congrArg List.length (rfl :
        (f.reverse.dropWhile p).reverse = (f.reverse.dropWhile p).reverse)
      simp only [List.length_reverse] at h4 ⊢
      simpa using h4
    have := dropWhile_eq_self_of_length hlen
    rw [this, List.reverse_reverse]
  refine ⟨h5, ?_⟩
  rw [h5] at h
  exact h

theorem rstrip_append_sat {p : Char → Bool} {g : Str} (f : Str)
    (hg : ∀ c ∈ g, p c = true) : rstrip p (f ++ g) = rstrip p f := by
  unfold rstrip
  rw [List.reverse_append]
  congr 1
  induction g using List.reverseRecOn with
  | nil => simp
  | append_singleton g' c ih =>
    have hc : p c = true := hg c (by simp)
    rw [List.reverse_append]
    simp only [List.reverse_singleton, List.singleton_append, List.cons_append]
    rw [List.dropWhile_cons_of_pos hc]
    exact ih (fun x hx => hg x (by simp [hx]))

/-- `str.strip(cs)`-invariant strings absorb an appended run of stripped
    characters: this is what recovers the name from `"...from NAME**"`. -/
theorem pyStrip_append_sat {p : Char → Bool} {f g : Str}
    (hf : pyStrip p f = f) (hg : ∀ c ∈ g, p c = true) :
    pyStrip p (f ++ g) = f := by
  obtain ⟨h1, h2⟩ := pyStrip_parts hf
  unfold pyStrip
  rw [rstrip_append_sat f hg, h1, h2]

theorem digitChar_mem (n : ℕ) : digitChar n ∈ lit "0123456789" := by
  unfold digitChar
  have hlt : n % 10 < (lit "0123456789").length := by
    have : n % 10 < 10 := Nat.mod_lt _ (by norm_num)
    simpa [lit] using this
  rw [List.getD_eq_getElem _ _ hlt]
  exact List.getElem_mem hlt

theorem natStrAux_chars (fuel n : ℕ) (acc : Str)
    (hacc : ∀ c ∈ acc, c ∈ lit "0123456789") :
    ∀ c ∈ natStrAux fuel n acc, c ∈ lit "0123456789" := by
  induction fuel generalizing n acc with
  | zero => exact hacc
  | succ fuel ih =>
    intro c hc
    rw [natStrAux] at hc
    split at hc
    · exact hacc c hc
    · refine ih (n / 10) _ ?_ c hc
      intro x hx
      rcases List.mem_cons.1 hx with rfl | hx
      · exact digitChar_mem _
      · exact hacc x hx

theorem natStr_chars (n : ℕ) : ∀ c ∈ natStr n, c ∈ lit "0123456789" := by
  unfold natStr
  split
  · intro c hc
    simp only [List.mem_singleton] at hc
    subst hc
    decide
  · exact natStrAux_chars n n [] (by simp)

theorem weekdayName_length (z : ℤ) : (weekdayName z).length = 3 := by
  unfold weekdayName
  repeat' split
  all_goals rfl

theorem dateLabel_length (z : ℤ) : (dateLabel z).length = 16 := by
  unfold dateLabel isoDate pad4 pad2
  simp [lit, weekdayName_length]
-- =====================================================================

/-- C1: the signature gate fails closed.  (1) An empty public-key
    configuration always yields invalid.  (2) A missing/empty signature
    header always yields invalid (whatever key and oracle).  (3)
    `verify_signature` answers `true` only when the hex decodes to
    well-sized key/signature bytes and the Ed25519 primitive reports
    success — any exception (`raised`) or mismatch yields `false`, and the
    function is a total boolean function by construction.  (4) Whenever the
    signature does not verify, the endpoint answers HTTP 401 with no side
    effects, uniformly in the JSON payload — i.e. before the payload is
    parsed or used. -/
theorem C1_signature_fails_closed :
    (∀ (oracle : CryptoOracle) (sig ts : Str) (body : List ℕ),
      verify_signature [] oracle sig ts body = false) ∧
    (∀ (pk : Str) (oracle : CryptoOracle) (ts : Str) (body : List ℕ),
      verify_signature pk oracle [] ts body = false) ∧
    (∀ (pk : Str) (oracle : CryptoOracle) (sig ts : Str) (body : List ℕ),
      verify_signature pk oracle sig ts body = true →
      ∃ pkB sigB, hexDecode pk = some pkB ∧ pkB.length = 32 ∧
        hexDecode sig = some sigB ∧ sigB.length = 64 ∧
        oracle.verify pkB sigB (strBytes ts ++ body) = .ok) ∧
    (∀ (cfg : Config) (oracle : CryptoOracle) (ext : Ext) (st : SheetData)
      (headers : List (Str × Str)) (body : List ℕ) (js : Option Payload),
      verify_signature cfg.discordPublicKey oracle
          ((headerGet headers (lit "X-Signature-Ed25519")).getD [])
          ((headerGet headers (lit "X-Signature-Timestamp")).getD []) body = false →
      discord_interaction cfg oracle ext st ⟨headers, body, js⟩ = (Resp.http401, [])) := by
  refine ⟨?_, ?_, ?_, ?_⟩
  · intro oracle sig ts body
    simp [verify_signature]
  · intro pk oracle ts body
    unfold verify_signature
    split
    · rfl
    · split
      · rfl
      · split
        · rfl
        · have h : hexDecode [] = some [] := rfl
          rw [h]
          simp
  · intro pk oracle sig ts body h
    unfold verify_signature at h
    split at h
    · exact absurd h (by simp)
    · split at h
      · exact absurd h (by simp)
      · rename_i pkB hpk
        split at h
        · exact absurd h (by simp)
        · rename_i hlen
          split at h
          · exact absurd h (by simp)
          · rename_i sigB hsig
            split at h
            · exact absurd h (by simp)
            · rename_i hslen
              split at h
              · rename_i hok
                exact ⟨pkB, sigB, hpk, by omega, hsig, by omega, hok⟩
              · exact absurd h (by simp)
  · intro cfg oracle ext st headers body js h
    simp only [discord_interaction]
    simp [h]

/-- C1 witness: a fully concrete rejected request (no key configured, no
    signature headers) is answered 401 with no effects and no payload use. -/
theorem C1_signature_fails_closed_witness :
    discord_interaction cfgEx ⟨fun _ _ _ => .ok⟩ extEx stEx ⟨[], [], none⟩ =
      (Resp.http401, []) :=
  C1_signature_fails_closed.2.2.2 cfgEx ⟨fun _ _ _ => .ok⟩ extEx stEx [] [] none
    (by decide)

/-- C10: `channel_allowed` is `false` whenever the channel id is empty or
    the command has no entry in `CMD_ALLOWED_CHANNELS`; `/schedulemeet` has
    no entry, so it is denied in every channel under every configuration,
    with the "the configured channel" wording of the empty allow-list, and
    its calendar-insert side effect can never happen. -/
theorem C10_schedulemeet_always_denied :
    (∀ (cfg : Config) (cmd : Str), cmdAllowedChannels cfg (pyLower cmd) = none →
      ∀ cid, channel_allowed cfg cmd cid = false) ∧
    (∀ (cfg : Config) (cmd : Str), channel_allowed cfg cmd [] = false) ∧
    (∀ (cfg : Config) (cid : Str), channel_allowed cfg (lit "schedulemeet") cid = false) ∧
    (∀ (cfg : Config) (ext : Ext) (st : SheetData) (p : Payload),
      p.cmdName = lit "schedulemeet" →
      handleCommand cfg ext st p =
        (Resp.msg
          (lit "⛔ **/schedulemeet** isn’t allowed here. Use it in the configured channel.")
          true, [])) := by
  have hsm : ∀ cfg : Config, cmdAllowedChannels cfg (pyLower (lit "schedulemeet")) = none := by
    intro cfg
    have hl : pyLower (lit "schedulemeet") = lit "schedulemeet" := by decide
    rw [hl]
    unfold cmdAllowedChannels
    repeat rw [if_neg (by decide)]
  have hca : ∀ (cfg : Config) (cid : Str), channel_allowed cfg (lit "schedulemeet") cid = false := by
    intro cfg cid
    unfold channel_allowed
    rw [hsm cfg]
    simp
  refine ⟨?_, ?_, hca, ?_⟩
  · intro cfg cmd h cid
    unfold channel_allowed
    rw [h]
    simp
  · intro cfg cmd
    unfold channel_allowed
    simp
  · intro cfg ext st p hname
    unfold handleCommand
    rw [hname]
    repeat rw [if_neg (by decide)]
    rw [if_pos rfl]
    unfold scheduleMeetCommand
    rw [hca cfg p.channelId]
    have hdeny : deny_wrong_channel cfg (lit "schedulemeet") =
        Resp.msg
          (lit "⛔ **/schedulemeet** isn’t allowed here. Use it in the configured channel.")
          true := by
      unfold deny_wrong_channel
      rw [hsm cfg]
      simp only [Option.getD_none, List.filter_nil, List.isEmpty_nil, if_true,
        discord_response_message]
      decide
    simp [hdeny]

/-- C10 witness: the concrete sample configuration denies `/schedulemeet`
    in an arbitrary channel, with no calendar effect. -/
theorem C10_schedulemeet_always_denied_witness :
    handleCommand cfgEx extEx stEx ⟨2, lit "schedulemeet", lit "ATT", lit "42",
        lit "Alice", [], [], lit "", lit "", lit "", [], []⟩ =
      (Resp.msg
        (lit "⛔ **/schedulemeet** isn’t allowed here. Use it in the configured channel.")
        true, []) :=
  C10_schedulemeet_always_denied.2.2.2 cfgEx extEx stEx _ (by decide)

theorem splitFirst_attModal (uid : Str) :
    splitFirst (lit "::") (lit "att_logout_progress::" ++ uid) =
      some (lit "att_logout_progress", uid) := by
  have hsh : lit "att_logout_progress::" ++ uid =
      lit "att_logout_progress" ++ lit "::" ++ uid := by
    have h : lit "att_logout_progress::" = lit "att_logout_progress" ++ lit "::" := by decide
    rw [h]
  rw [hsh]
  exact splitFirst_of_noEarlyHit (by decide) (noEarlyHit_of_B (by decide))

/-- C9: a `att_logout_progress::…` modal submission carrying a nonempty
    embedded user id different from the submitter's id is refused
    ephemerally and appends nothing — the logout modal only records for the
    user it was issued to. -/
theorem C9_logout_modal_ownership :
    ∀ (cfg : Config) (ext : Ext) (st : SheetData) (p : Payload) (uid : Str),
      p.customId = lit "att_logout_progress::" ++ uid →
      uid ≠ [] → uid ≠ p.userId →
      modalSubmitBranch cfg ext st p =
        (Resp.msg (lit "❌ This modal isn’t for you.") true, []) := by
  intro cfg ext st p uid hc hnil hne
  unfold modalSubmitBranch
  rw [hc]
  rw [if_pos (List.isPrefixOf_iff_prefix.2 (List.prefix_append _ _))]
  unfold attLogoutModal
  rw [splitFirst_attModal]
  have h1 : uid.isEmpty = false := by
    cases uid with
    | nil => exact absurd rfl hnil
    | cons a t => rfl
  simp [h1, hne, discord_response_message]

/-- C9 witness: a modal minted for user 7 submitted by user 42 is refused
    with no appended row. -/
theorem C9_logout_modal_ownership_witness :
    modalSubmitBranch cfgEx extEx stEx ⟨5, lit "", lit "ATT", lit "42", lit "Alice",
        [], [], lit "att_logout_progress::7", lit "", lit "", [lit "did things"], []⟩ =
      (Resp.msg (lit "❌ This modal isn’t for you.") true, []) :=
  C9_logout_modal_ownership cfgEx extEx stEx _ (lit "7") (by decide) (by decide) (by decide)

/-- C4: every restricted command invoked from a channel outside its
    allow-list is answered by the deterministic ephemeral wrong-channel
    message (built from the configured channel labels) and the dispatcher
    performs no side effect at all — no sheet append, no outbound post. -/
theorem C4_wrong_channel_short_circuits :
    ∀ cmd ∈ restrictedCommands,
      ∀ (cfg : Config) (ext : Ext) (st : SheetData) (p : Payload),
        p.cmdName = cmd →
        channel_allowed cfg cmd p.channelId = false →
        handleCommand cfg ext st p = (deny_wrong_channel cfg cmd, []) ∧
        ∃ content, deny_wrong_channel cfg cmd = Resp.msg content true := by
  intro cmd hmem cfg ext st p hname hallow
  have hdeny : ∃ content, deny_wrong_channel cfg cmd = Resp.msg content true :=
    ⟨_, rfl⟩
  fin_cases hmem <;>
    exact ⟨by
      simp +decide [handleCommand, attendanceCommand, contentRequestCommand,
        recordInvoiceCommand, clearInvoiceCommand, viewInvoiceCommand,
        viewFinStatusCommand, recordTaxCommand, assetReviewCommand, leaveCountCommand,
        leaverequestCommand, wfhCommand, hname, hallow], hdeny⟩

/-- C4 witness: `/attendance` from the finance channel is denied with no
    effects, ephemerally. -/
theorem C4_wrong_channel_short_circuits_witness :
    handleCommand cfgEx extEx stEx ⟨2, lit "attendance", lit "F", lit "42", lit "Alice",
        [], [], lit "", lit "", lit "", [], []⟩ =
      (deny_wrong_channel cfgEx (lit "attendance"), []) ∧
    ∃ content, deny_wrong_channel cfgEx (lit "attendance") = Resp.msg content true :=
  C4_wrong_channel_short_circuits (lit "attendance") (by decide) cfgEx extEx stEx _
    (by decide) (by decide)

theorem attAppendActions_append (a b : List Effect) :
    attAppendActions (a ++ b) = attAppendActions a ++ attAppendActions b :=
  List.filterMap_append a b _

theorem attAppendActions_broadcast (cfg : Config) (ext : Ext)
    (nm act uid cid prog : Str) :
    attAppendActions (broadcast_attendance cfg ext nm act uid cid prog) = [] := by
  simp only [broadcast_attendance]
  repeat' split
  all_goals rfl

theorem get_today_status_go_spec (nm uid : Str) (today : CivilDate)
    (rows : List (List Cell)) (hl hlo : Bool) :
    get_today_status_go nm uid today rows hl hlo =
      (hl || rows.any (fun r => rowIsUserActionToday r nm uid today (lit "login")),
       hlo || rows.any (fun r => rowIsUserActionToday r nm uid today (lit "logout"))) := by
  induction rows generalizing hl hlo with
  | nil => simp [get_today_status_go]
  | cons r rest ih =>
    by_cases h1 : r.length < 3
    · have hact : ∀ act, rowIsUserActionToday r nm uid today act = false := by
        intro act
        unfold rowIsUserActionToday
        have h : ¬ (3 ≤ r.length) := by omega
        simp [h]
      rw [get_today_status_go, if_pos h1, ih]
      simp [hact]
    · by_cases h2 : row_matches_user r nm uid
      · by_cases h3 : cell_is_today_ist (rowCell r 0) today
        · have hge : 3 ≤ r.length := by omega
          have hact : ∀ act, rowIsUserActionToday r nm uid today act =
              decide (pyLower (strip (cellStr (rowCell r 2))) = act) := by
            intro act
            unfold rowIsUserActionToday
            simp [hge, h2, h3]
          rw [get_today_status_go, if_neg h1, if_neg (by simp [h2]), if_neg (by simp [h3])]
          simp only []
          set a := pyLower (strip (cellStr (rowCell r 2))) with ha
          by_cases hb : ((hl || (a = lit "login" : Bool)) && (hlo || (a = lit "logout" : Bool))) = true
          · rw [if_pos hb]
            rw [Bool.and_eq_true] at hb
            obtain ⟨hbl, hblo⟩ := hb
            simp only [List.any_cons, hact]
            rw [← Bool.or_assoc, ← Bool.or_assoc, hbl, hblo]
            simp
          · rw [if_neg hb, ih]
            simp only [List.any_cons, hact]
            rw [Bool.or_assoc, Bool.or_assoc]
        · have hact : ∀ act, rowIsUserActionToday r nm uid today act = false := by
            intro act
            unfold rowIsUserActionToday
            simp [h3]
          rw [get_today_status_go, if_neg h1, if_neg (by simp [h2]), if_pos (by simp [h3]), ih]
          simp [hact]
      · have hact : ∀ act, rowIsUserActionToday r nm uid today act = false := by
          intro act
          unfold rowIsUserActionToday
          simp [h2]
        rw [get_today_status_go, if_neg h1, if_pos (by simp [h2]), ih]
        simp [hact]

theorem get_today_status_spec (rows : List (List Cell)) (nm uid : Str)
    (today : CivilDate) :
    get_today_status rows nm uid today =
      (rows.any (fun r => rowIsUserActionToday r nm uid today (lit "login")),
       rows.any (fun r => rowIsUserActionToday r nm uid today (lit "logout"))) := by
  unfold get_today_status
  rw [get_today_status_go_spec]
  simp

theorem attAppendActions_cons_append (rng : Str) (row : List Cell) (effs : List Effect) :
    attAppendActions (Effect.sheetAppend rng row :: effs) =
      (if rng = ATTENDANCE_WRITE_RANGE then [cellStr (rowCell row 2)] else []) ++
        attAppendActions effs := by
  by_cases h : rng = ATTENDANCE_WRITE_RANGE
  · simp [attAppendActions, h]
  · simp [attAppendActions, h]

/-- C2: the attendance flow keeps at most one Login and one Logout per user
    and IST day.  The `get_today_status` flags equal the existence of a
    matching Login/Logout row for this user today ((1),(2)); with no Login
    today, `/attendance` appends exactly one row, a Login (3); with a Login
    and no Logout it opens the progress modal and appends nothing (4); the
    modal's submission — which re-checks today's status before writing —
    appends exactly one row, a Logout (5), and appends nothing when a
    Logout already exists (6); with both recorded, `/attendance` appends
    nothing and answers "already recorded" (7). -/
theorem C2_attendance_one_login_one_logout :
    ∀ (cfg : Config) (ext : Ext) (st : SheetData) (cid uid nm : Str) (values : List Str),
      channel_allowed cfg (lit "attendance") cid = true →
      ext.readOk = true → ext.appendOk = true →
      ((get_today_status st.attendance nm uid ext.today).1 =
        st.attendance.any (fun r => rowIsUserActionToday r nm uid ext.today (lit "login"))) ∧
      ((get_today_status st.attendance nm uid ext.today).2 =
        st.attendance.any (fun r => rowIsUserActionToday r nm uid ext.today (lit "logout"))) ∧
      ((get_today_status st.attendance nm uid ext.today).1 = false →
        attAppendActions (attendanceCommand cfg ext st cid uid nm).2 = [lit "Login"]) ∧
      ((get_today_status st.attendance nm uid ext.today).1 = true →
       (get_today_status st.attendance nm uid ext.today).2 = false →
        attendanceCommand cfg ext st cid uid nm =
          (Resp.modal (lit "att_logout_progress::" ++ uid)
            (lit "Daily progress (required for logout)"), [])) ∧
      ((get_today_status st.attendance nm uid ext.today).1 = true →
       (get_today_status st.attendance nm uid ext.today).2 = false →
        attAppendActions
          (attLogoutModal cfg ext st (lit "att_logout_progress::" ++ uid) uid nm cid
            values).2 = [lit "Logout"]) ∧
      ((get_today_status st.attendance nm uid ext.today).2 = true →
        (attLogoutModal cfg ext st (lit "att_logout_progress::" ++ uid) uid nm cid
          values).2 = []) ∧
      ((get_today_status st.attendance nm uid ext.today).1 = true →
       (get_today_status st.attendance nm uid ext.today).2 = true →
        attendanceCommand cfg ext st cid uid nm =
          (Resp.msg (lit "ℹ️ You’ve already recorded **Login** and **Logout** for today.")
            true, [])) := by
  intro cfg ext st cid uid nm values ha hr hap
  refine ⟨?_, ?_, ?_, ?_, ?_, ?_, ?_⟩
  · rw [get_today_status_spec]
  · rw [get_today_status_spec]
  · intro h1
    simp [attendanceCommand, ha, hr, hap, h1, attAppendActions_cons_append,
      attAppendActions_broadcast, attendanceRow, rowCell, cellStr]
  · intro h1 h2
    simp [attendanceCommand, ha, hr, hap, h1, h2]
  · intro h1 h2
    simp [attLogoutModal, splitFirst_attModal, hr, hap, h1, h2,
      attAppendActions_cons_append, attAppendActions_broadcast, attendanceRow, rowCell,
      cellStr]
  · intro h2
    by_cases h1 : (get_today_status st.attendance nm uid ext.today).1 <;>
      simp [attLogoutModal, splitFirst_attModal, hr, h1, h2]
  · intro h1 h2
    simp [attendanceCommand, ha, hr, hap, h1, h2, discord_response_message]

/-- C2 witness: with no rows for today, `/attendance` from the allowed
    channel appends exactly one Login row. -/
theorem C2_attendance_one_login_one_logout_witness :
    attAppendActions (attendanceCommand cfgEx extEx stEx (lit "ATT") (lit "42")
      (lit "Alice")).2 = [lit "Login"] :=
  (C2_attendance_one_login_one_logout cfgEx extEx stEx (lit "ATT") (lit "42") (lit "Alice")
    [] (by decide) (by decide) (by decide)).2.2.1 (by decide)

theorem buildChoicesLC_length (q : Str) (l : List (Str × Str)) (acc : List Choice)
    (h : acc.length < 25) : (buildChoicesLC q l acc).length ≤ 25 := by
  induction l generalizing acc with
  | nil =>
    simp only [buildChoicesLC]
    omega
  | cons x rest ih =>
    obtain ⟨disp, val⟩ := x
    simp only [buildChoicesLC]
    split
    · exact ih acc h
    · split
      · rename_i hlen
        simp only [List.length_append, List.length_singleton]
        omega
      · rename_i hlen
        refine ih _ ?_
        simp only [List.length_append, List.length_singleton] at hlen ⊢
        omega

theorem buildChoicesLC_labels (q : Str) (l : List (Str × Str)) (acc : List Choice)
    (h : ∀ c ∈ acc, c.name.length ≤ 100) :
    ∀ c ∈ buildChoicesLC q l acc, c.name.length ≤ 100 := by
  induction l generalizing acc with
  | nil => simpa [buildChoicesLC] using h
  | cons x rest ih =>
    obtain ⟨disp, val⟩ := x
    simp only [buildChoicesLC]
    split
    · exact ih acc h
    · have hacc' : ∀ c ∈ acc ++ [(⟨disp.take 100, val⟩ : Choice)], c.name.length ≤ 100 := by
        intro c hc
        rcases List.mem_append.1 hc with hc | hc
        · exact h c hc
        · simp only [List.mem_singleton] at hc
          subst hc
          exact List.length_take_le _ _
      split
      · exact hacc'
      · exact ih _ hacc'

theorem length_insertLe {α : Type} (le : α → α → Bool) (x : α) (l : List α) :
    (insertLe le x l).length = l.length + 1 := by
  induction l with
  | nil => rfl
  | cons y ys ih =>
    rw [insertLe]
    split
    · rfl
    · simp [ih]

theorem length_sortLe {α : Type} (le : α → α → Bool) (l : List α) :
    (sortLe le l).length = l.length := by
  induction l with
  | nil => rfl
  | cons x xs ih =>
    rw [sortLe, length_insertLe, ih]
    rfl

/-- C8: every autocomplete answer carries at most 25 choices, and every
    choice label is at most 100 characters long — domain data that would
    overflow is truncated, never an error. -/
theorem C8_autocomplete_bounds :
    ∀ (cfg : Config) (ext : Ext) (st : SheetData) (p : Payload),
      (respChoices (autocompleteBranch cfg ext st p).1).length ≤ 25 ∧
      (respChoices (autocompleteBranch cfg ext st p).1).all
        (fun c => decide (c.name.length ≤ 100)) = true := by
  intro cfg ext st p
  unfold autocompleteBranch
  rcases hfoc : p.options.find? (fun o => o.focused) with _ | f <;> simp only [hfoc]
  · simp [respChoices]
  · by_cases c1 : p.cmdName = lit "leavecount" ∧ f.name = lit "name"
    · rw [if_pos c1]
      by_cases hrd : ext.readOk = true
      · rw [if_neg (by simp [hrd])]
        simp only [respChoices]
        refine ⟨buildChoicesLC_length _ _ _ (by simp), ?_⟩
        rw [List.all_eq_true]
        intro c hc
        simpa using buildChoicesLC_labels _ _ [] (by simp) c hc
      · rw [if_pos (by simp at hrd; simp [hrd])]
        simp [respChoices]
    · rw [if_neg c1]
      by_cases c2 : (p.cmdName = lit "clearinvoice" ∨ p.cmdName = lit "recordtax") ∧
          f.name = lit "invoicenumber"
      · rw [if_pos c2]
        by_cases hrd : ext.readOk = true
        · rw [if_neg (by simp [hrd])]
          simp only [respChoices]
          constructor
          · rw [List.length_map]
            simp only [list_invoices_for_autocomplete]
            exact List.length_take_le _ _
          · rw [List.all_eq_true]
            intro c hc
            rcases List.mem_map.1 hc with ⟨e, _, rfl⟩
            simpa using List.length_take_le _ _
        · rw [if_pos (by simp at hrd; simp [hrd])]
          simp [respChoices]
      · rw [if_neg c2]
        by_cases c3 : p.cmdName = lit "wfh" ∧ f.name = lit "date"
        · rw [if_pos c3]
          simp only [respChoices]
          constructor
          · simp only [List.length_map, List.length_range]
            omega
          · rw [List.all_eq_true]
            intro c hc
            rcases List.mem_map.1 hc with ⟨i, _, rfl⟩
            simp [dateLabel_length]
        · rw [if_neg c3]
          by_cases c4 : p.cmdName = lit "leaverequest"
          · rw [if_pos c4]
            by_cases c5 : channel_allowed cfg (lit "leaverequest") p.channelId = true
            · rw [if_neg (by simp [c5])]
              by_cases c6 : f.name = lit "from"
              · rw [if_pos c6]
                simp only [respChoices]
                constructor
                · simp only [List.length_map, List.length_range]
                  omega
                · rw [List.all_eq_true]
                  intro c hc
                  rcases List.mem_map.1 hc with ⟨i, _, rfl⟩
                  simp [dateLabel_length]
              · rw [if_neg c6]
                by_cases c7 : f.name = lit "to"
                · rw [if_pos c7]
                  simp only [respChoices]
                  constructor
                  · simp only [List.length_map, List.length_range]
                    omega
                  · rw [List.all_eq_true]
                    intro c hc
                    rcases List.mem_map.1 hc with ⟨i, _, rfl⟩
                    simp [dateLabel_length]
                · rw [if_neg c7]
                  simp [respChoices]
            · rw [if_pos (by simp at c5; simp [c5])]
              simp [respChoices]
          · rw [if_neg c4]
            simp [respChoices]

theorem alGet_alAdd (d : RatAL) (k k' : Str) (v : ℚ) :
    alGet k (alAdd d k' v) =
      if k' = k then some (alGetD k d 0 + v) else alGet k d := by
  induction d with
  | nil =>
    by_cases h : k' = k <;> simp [alAdd, alGet, alGetD, h]
  | cons hd tl ih =>
    obtain ⟨k0, v0⟩ := hd
    by_cases h0 : k0 = k'
    · subst h0
      rw [alAdd, if_pos rfl]
      by_cases hk : k0 = k
      · subst hk
        simp [alGet, alGetD]
      · simp [alGet, alGetD, hk, List.find?_cons_of_neg]
    · rw [alAdd, if_neg h0]
      by_cases hk : k0 = k
      · subst hk
        have h0' : ¬ k' = k0 := fun h => h0 h.symm
        simp [alGet, alGetD, h0']
      · have hfind : ∀ rest : RatAL,
            alGet k ((k0, v0) :: rest) = alGet k rest := by
          intro rest
          have : List.find? (fun p : Str × ℚ => decide (p.1 = k)) ((k0, v0) :: rest)
              = List.find? (fun p : Str × ℚ => decide (p.1 = k)) rest :=
            List.find?_cons_of_neg _ (by simp [hk])
          simp [alGet, this]
        rw [hfind, hfind, ih]
        by_cases h1 : k' = k <;> simp only [h1, if_true, if_false]
        have : alGetD k ((k0, v0) :: tl) 0 = alGetD k tl 0 := by
          simp [alGetD, hfind]
        rw [this]

theorem alGetD_alAdd (d : RatAL) (k k' : Str) (v : ℚ) :
    alGetD k (alAdd d k' v) 0 =
      if k' = k then alGetD k d 0 + v else alGetD k d 0 := by
  unfold alGetD
  rw [alGet_alAdd]
  by_cases h : k' = k <;> simp [h, alGetD]

theorem alGetD_foldl_guard (k : Str) (rows : List (List Cell)) (acc : RatAL)
    (n : ℕ) (key : List Cell → Str) (val : List Cell → ℚ) :
    alGetD k (rows.foldl
        (fun a r => if r.length < n then a else alAdd a (key r) (val r)) acc) 0 =
      alGetD k acc 0 +
        ((rows.filter
            (fun r => decide (n ≤ r.length) && decide (key r = k))).map val).sum := by
  induction rows generalizing acc with
  | nil => simp
  | cons r rest ih =>
    rw [List.foldl_cons, ih]
    by_cases hlen : r.length < n
    · rw [if_pos hlen]
      have hn : ¬ n ≤ r.length := by omega
      simp [List.filter_cons, hn]
    · rw [if_neg hlen, alGetD_alAdd]
      have hn : n ≤ r.length := by omega
      by_cases hk : key r = k
      · rw [if_pos hk]
        have hcond : (decide (n ≤ r.length) && decide (key r = k)) = true := by
          simp [hn, hk]
        simp only [List.filter_cons, hcond, if_true, List.map_cons, List.sum_cons]
        ring
      · rw [if_neg hk]
        simp [List.filter_cons, hn, hk]

theorem alGet_mapValues (f : Str → ℚ → ℚ) (d : RatAL) (k : Str) :
    alGet k (d.map (fun p => (p.1, f p.1 p.2))) = (alGet k d).map (f k) := by
  induction d with
  | nil => rfl
  | cons hd tl ih =>
    obtain ⟨k0, v0⟩ := hd
    by_cases hk : k0 = k
    · subst hk
      simp [alGet]
    · have h1 : List.find? (fun p : Str × ℚ => decide (p.1 = k))
          ((k0, f k0 v0) :: tl.map (fun p => (p.1, f p.1 p.2)))
          = List.find? (fun p : Str × ℚ => decide (p.1 = k))
              (tl.map (fun p => (p.1, f p.1 p.2))) :=
        List.find?_cons_of_neg _ (by simp [hk])
      have h2 : List.find? (fun p : Str × ℚ => decide (p.1 = k)) ((k0, v0) :: tl)
          = List.find? (fun p : Str × ℚ => decide (p.1 = k)) tl :=
        List.find?_cons_of_neg _ (by simp [hk])
      simp only [alGet, List.map_cons] at ih ⊢
      rw [h1, h2]
      exact ih

theorem alGet_eq_some_alGetD (k : Str) (d : RatAL) (v : ℚ)
    (h : alGet k d = some v) : alGetD k d 0 = v := by
  unfold alGetD
  rw [h]
  rfl

theorem alGet_outstanding (totals cleared : RatAL) (k : Str) :
    alGet k (outstanding_by_invoice_of totals cleared) =
      (alGet k totals).map (fun q => max (q - alGetD k cleared 0) 0) := by
  unfold outstanding_by_invoice_of
  exact alGet_mapValues (fun s q => max (q - alGetD s cleared 0) 0) totals k

theorem alGetD_totals_by_invoice (inv : List (List Cell)) (k : Str) :
    alGetD k (totals_by_invoice inv) 0 = invoiceSum k inv := by
  unfold totals_by_invoice invoiceSum
  rw [alGetD_foldl_guard]
  simp [alGetD, alGet]

theorem alGetD_cleared_by_invoice (cl : List (List Cell)) (k : Str) :
    alGetD k (cleared_by_invoice cl) 0 = clearedSum k cl := by
  unfold cleared_by_invoice clearedSum
  rw [alGetD_foldl_guard]
  simp [alGetD, alGet]

/-- C3: the finance aggregation computes, per invoice number appearing in
    the invoice rows, `outstanding = max(Σ invoiced − Σ cleared, 0)`, by a
    full scan of the invoice and clearance ranges of the sheet passed in
    (no persisted running balance), and the outstanding value is never
    negative.  In particular the sample sheet whose "INV-1" invoice rows
    total 1000 and whose clearance rows total 400 yields outstanding 600,
    and when the clearances (1500) exceed the invoiced amount the
    outstanding floors at 0. -/
theorem C3_outstanding_per_invoice :
    (∀ (st : SheetData) (k : Str) (v : ℚ),
      alGet k (compute_fin_status st).2.2.2.2 = some v →
      v = max (invoiceSum k st.invoices - clearedSum k st.invoiceClears) 0 ∧ 0 ≤ v) ∧
    invoiceSum (lit "INV-1") exInvRows = 1000 ∧
    clearedSum (lit "INV-1") exClearRows = 400 ∧
    alGet (lit "INV-1") (compute_fin_status (exSheet exInvRows exClearRows)).2.2.2.2
      = some 600 ∧
    clearedSum (lit "INV-1") exOverClearRows = 1500 ∧
    alGet (lit "INV-1") (compute_fin_status (exSheet exInvRows exOverClearRows)).2.2.2.2
      = some 0 := by
  refine ⟨?_, ?_, ?_, ?_, ?_, ?_⟩
  · intro st k v h
    simp only [compute_fin_status] at h
    rw [alGet_outstanding] at h
    cases htot : alGet k (totals_by_invoice st.invoices) with
    | none => rw [htot] at h; simp at h
    | some t =>
      rw [htot] at h
      have ht : t = invoiceSum k st.invoices :=
        (alGet_eq_some_alGetD k _ t htot).symm.trans (alGetD_totals_by_invoice _ k)
      have hv : v = max (t - alGetD k (cleared_by_invoice st.invoiceClears) 0) 0 := by
        simpa using h.symm
      rw [hv, ht, alGetD_cleared_by_invoice]
      exact ⟨rfl, le_max_right _ _⟩
  · simp +decide [invoiceSum, exInvRows, headerSkip, rowCell, cellIsStr, cellStr,
      strip, pyStrip, rstrip, isPySpace, to_number, lit]
    norm_num
  · simp +decide [clearedSum, exClearRows, headerSkip, rowCell, cellIsStr, cellStr,
      strip, pyStrip, rstrip, isPySpace, to_number, lit]
    norm_num
  · simp +decide [compute_fin_status, exSheet, totals_by_invoice, cleared_by_invoice,
      outstanding_by_invoice_of, headerSkip, alAdd, alGet, alGetD, exInvRows,
      exClearRows, rowCell, cellStr, cellIsStr, strip, pyStrip, rstrip, isPySpace,
      to_number, lit]
    norm_num
  · simp +decide [clearedSum, exOverClearRows, headerSkip, rowCell, cellIsStr, cellStr,
      strip, pyStrip, rstrip, isPySpace, to_number, lit]
  · simp +decide [compute_fin_status, exSheet, totals_by_invoice, cleared_by_invoice,
      outstanding_by_invoice_of, headerSkip, alAdd, alGet, alGetD, exInvRows,
      exOverClearRows, rowCell, cellStr, cellIsStr, strip, pyStrip, rstrip, isPySpace,
      to_number, lit]
    norm_num

/-- C3 witness: the universal outstanding formula applied at the concrete
    sample sheet, its hypothesis discharged by the concrete evaluation. -/
theorem C3_outstanding_per_invoice_witness :
    (600 : ℚ) =
      max (invoiceSum (lit "INV-1") exInvRows - clearedSum (lit "INV-1") exClearRows) 0 ∧
    (0 : ℚ) ≤ 600 :=
  C3_outstanding_per_invoice.1 (exSheet exInvRows exClearRows) (lit "INV-1") 600
    C3_outstanding_per_invoice.2.2.2.1

theorem to_int_two : to_int (.str ['2']) 0 = 2 := by
  have hd2 : digitsToNat ['2'] = 2 := by decide
  have hp : parseFloat ['2'] = some (1 * ((digitsToNat ['2'] : ℕ) : ℚ)) := rfl
  rw [hd2] at hp
  have h2 : (1 : ℚ) * ((2 : ℕ) : ℚ) = 2 := by norm_num
  rw [h2] at hp
  simp [to_int, hp, ratTrunc]

/-- C7: a notifier failure after a successful primary append is NOT always
    logged-only.  In the `/leaverequest` branch the approver notification
    sits inside the same `try` as the sheet append: with the very external
    world in which the spreadsheet append succeeds (the append effect is
    emitted) but every Discord post raises, the branch answers the invoking
    user with the "❌ Failed to record leave." error instead of the success
    acknowledgement.  The `/wfh` branch, whose notification has its own
    `try/except`, returns the success acknowledgement under the same failing
    world — the claimed behaviour holds there but not for `/leaverequest`. -/
theorem C7_notifier_failure_changes_response :
    (leaverequestCommand cfgC7 extC7 pC7leave =
      (discord_response_message
        (lit "❌ Failed to record leave. " ++ extC7.excText) true,
       [Effect.sheetAppend LEAVE_REQUESTS_RANGE
          [.str extC7.nowTs, .str (lit "Alice"), .str (lit "2025-03-01"),
           .str (lit "2"), .str (lit "2025-03-03"), .str (lit "trip")]])) ∧
    (wfhCommand cfgC7 extC7 pC7wfh =
      (discord_response_message
        (lit "✅ WFH request submitted for **2025-03-01**.\nReason: plumber") true,
       [Effect.sheetAppend WFH_REQUESTS_RANGE
          [.str extC7.nowTs, .str (lit "Alice"), .str (lit "2025-03-01"),
           .str (lit "plumber")]])) := by
  constructor
  · simp +decide [leaverequestCommand, channel_allowed, cmdAllowedChannels, pyLower,
      cfgC7, pC7leave, extC7, getOptExact, get_opt, notifyApprover, to_int_two, lit,
      strip, pyStrip, rstrip, isPySpace]
  · simp +decide [wfhCommand, channel_allowed, cmdAllowedChannels, pyLower,
      cfgC7, pC7wfh, extC7, getOptExact, get_opt, notifyApprover, lit,
      strip, pyStrip, rstrip, isPySpace]

/-- C5 counterexample: `sheets_serial_to_date_ist` does NOT satisfy
    `date = epoch + floor(serial)`.  It converts the UTC instant to IST
    (+5:30) *before* taking the calendar date, so the serial
    `45000 + 4/5` (= 2023-03-15 19:12 UTC) lands on 2023-03-16 IST while
    `epoch + floor(serial)` is 2023-03-15. -/
theorem C5_ist_shift_counterexample :
    sheets_serial_to_date_ist (45000 + 4/5) = ⟨2023, 3, 16⟩ ∧
    civilFromDays (sheetsEpochDay + ⌊(45000 : ℚ) + 4/5⌋) = ⟨2023, 3, 15⟩ := by
  have hE : sheetsEpochDay = -25569 := by decide
  constructor
  · have h1 : ⌊(sheetsEpochDT + (45000 + 4/5)) + 11/48⌋ = (19432 : ℤ) := by
      rw [sheetsEpochDT, hE]
      norm_num
    simp only [sheets_serial_to_date_ist, astimezoneIst, pyAddDays, dtDate, h1]
    decide
  · have h2 : ⌊(45000 : ℚ) + 4/5⌋ = (45000 : ℤ) := by norm_num
    rw [h2, hE]
    decide

/-- C5 (amended): the `_sheets_serial_to_dt_ist` conversion (IST attached,
    wall clock unchanged) satisfies `date = epoch + floor(serial)` with day
    0 = 1899-12-30 exactly; the `sheets_serial_to_date_ist` conversion
    instead satisfies `date = epoch + floor(serial + 11/48)` (it converts
    UTC→IST before flooring), which agrees with the claimed formula on
    every serial whose fractional part is below 37/48 — in particular on
    all integer serials.  Serial 0 maps to 1899-12-30, serial 45000 to
    2023-03-15, and every valid calendar date round-trips losslessly
    through its serial. -/
theorem C5_serial_to_date_epoch_floor :
    (∀ v : ℚ, sheets_serial_to_dt_ist (.num v) =
        some (civilFromDays (sheetsEpochDay + ⌊v⌋))) ∧
    (∀ v : ℚ, sheets_serial_to_date_ist v =
        civilFromDays (sheetsEpochDay + ⌊v + 11/48⌋)) ∧
    (∀ z : ℤ, sheets_serial_to_date_ist (z : ℚ) =
        civilFromDays (sheetsEpochDay + z)) ∧
    sheets_serial_to_date_ist 0 = ⟨1899, 12, 30⟩ ∧
    sheets_serial_to_date_ist 45000 = ⟨2023, 3, 15⟩ ∧
    (∀ y m d : ℤ, dateObj y m d = some ⟨y, m, d⟩ →
      sheets_serial_to_date_ist ((daysFromCivil y m d - sheetsEpochDay : ℤ) : ℚ) =
        ⟨y, m, d⟩) := by
  have key : ∀ v : ℚ, sheets_serial_to_date_ist v =
      civilFromDays (sheetsEpochDay + ⌊v + 11/48⌋) := by
    intro v
    simp only [sheets_serial_to_date_ist, astimezoneIst, pyAddDays, sheetsEpochDT, dtDate]
    rw [add_assoc, Int.floor_int_add]
  have keyInt : ∀ z : ℤ, sheets_serial_to_date_ist (z : ℚ) =
      civilFromDays (sheetsEpochDay + z) := by
    intro z
    have hz : ⌊((z : ℚ)) + 11/48⌋ = z := by
      rw [Int.floor_int_add]
      norm_num
    rw [key, hz]
  refine ⟨?_, key, keyInt, ?_, ?_, ?_⟩
  · intro v
    simp only [sheets_serial_to_dt_ist, sheets_serial_to_dt_ist_num, replaceTz,
      pyAddDays, sheetsEpochDT, dtDate, Int.floor_int_add]
  · have h := keyInt 0
    simp only [Int.cast_zero, add_zero] at h
    rw [h]
    decide
  · have h := keyInt 45000
    norm_num at h
    rw [h]
    decide
  · intro y m d h
    unfold dateObj at h
    split at h
    · rename_i hv
      have h6 : ⌊((daysFromCivil y m d - sheetsEpochDay : ℤ) : ℚ) + 11/48⌋ =
          daysFromCivil y m d - sheetsEpochDay := by
        rw [Int.floor_int_add]
        norm_num
      rw [key, h6]
      have harg : sheetsEpochDay + (daysFromCivil y m d - sheetsEpochDay) =
          daysFromCivil y m d := by ring
      rw [harg, hv.2.2]
    · exact absurd h (by simp)

/-- C5 witness: the round-trip property applied at the valid date
    2023-03-15, the validity hypothesis discharged by evaluation. -/
theorem C5_serial_to_date_epoch_floor_witness :
    dateObj 2023 3 15 = some ⟨2023, 3, 15⟩ ∧
    sheets_serial_to_date_ist ((daysFromCivil 2023 3 15 - sheetsEpochDay : ℤ) : ℚ) =
      ⟨2023, 3, 15⟩ :=
  ⟨by decide, C5_serial_to_date_epoch_floor.2.2.2.2.2 2023 3 15 (by decide)⟩

theorem allNe_append {x : Char} {a b : Str} (ha : ∀ c ∈ a, c ≠ x)
    (hb : ∀ c ∈ b, c ≠ x) : ∀ c ∈ a ++ b, c ≠ x := by
  intro c hc
  rcases List.mem_append.1 hc with h | h
  · exact ha c h
  · exact hb c h

theorem NoEarlyHit.appendLeft {m f rest : Str} (hf : NoEarlyHit m f)
    (hrest : NoEarlyHit m rest) : NoEarlyHit m (f ++ rest) := by
  intro q hq hne
  rcases suffix_append_cases hq with h | ⟨qa, hqa, hqane, rfl⟩
  · exact hrest q h hne
  · exact mismatchB_append_left rest (hf qa hqa hqane)

theorem intStr_ne_star (z : ℤ) : ∀ c ∈ intStr z, c ≠ '*' := by
  have hd : ∀ c ∈ lit "0123456789", c ≠ '*' := by decide
  unfold intStr
  split
  · intro c hc
    rcases List.mem_cons.1 hc with rfl | hc
    · decide
    · exact hd c (natStr_chars _ c hc)
  · intro c hc
    exact hd c (natStr_chars _ c hc)

theorem noEarlyHit_reason_intStr (z : ℤ) :
    NoEarlyHit (lit "**Reason:** ") (intStr z) := by
  have h : ('*' :: lit "*Reason:** ") = lit "**Reason:** " := by decide
  rw [← h]
  exact NoEarlyHit.ofAllNe (intStr_ne_star z)

/-- `grab_between` recovers a newline-free, strip-invariant field placed
    right after the first occurrence of the marker. -/
theorem grabBetween_exact {m pre f rest : Str} (hm : m ≠ [])
    (hpre : NoEarlyHit m pre) (hnl : ∀ c ∈ f, c ≠ '\n') (hs : strip f = f) :
    grabBetween m (pre ++ m ++ (f ++ '\n' :: rest)) = f := by
  unfold grabBetween
  rw [splitFirst_of_noEarlyHit hm hpre]
  show strip (firstLine (f ++ '\n' :: rest)) = f
  unfold firstLine
  have hsh : f ++ '\n' :: rest = f ++ ['\n'] ++ rest := by simp
  rw [hsh, splitFirst_of_noEarlyHit (by decide) (NoEarlyHit.ofAllNe hnl)]
  exact hs

set_option maxRecDepth 10000 in
/-- C6 counterexample: a leave request with an EMPTY reason — which contains
    no label text and no newline — does not round-trip: the card prints
    "(not provided)" and the parser returns that placeholder, not the
    original empty reason. -/
theorem C6_empty_reason_counterexample :
    (parse_leave_card (leaveCardContent (lit "Alice") (lit "2025-03-01")
        (lit "2025-03-03") 2 [])).2.2.2.1 = lit "(not provided)" ∧
    lit "(not provided)" ≠ ([] : Str) := by
  constructor
  · decide
  · decide

/-- C6 (amended): formatting a leave request into its chat card and parsing
    the card back reproduces the name, from-date, to-date and reason
    exactly, provided the fields contain no newline, no occurrence of a
    label marker can start inside a field (the `NoEarlyHit` hypotheses, the
    claim's "no label-text collisions"), every field is invariant under the
    parser's whitespace strip, the name is additionally invariant under the
    `"* "`-strip applied to the card title, and the reason is nonempty (an
    empty reason comes back as the "(not provided)" placeholder). -/
theorem C6_leave_card_roundtrip :
    ∀ (nm fromS toS reason : Str) (days : ℤ),
      pyStrip isStarSpace nm = nm → strip nm = nm → (∀ c ∈ nm, c ≠ '\n') →
      NoEarlyHit (lit "**From:** ") nm → NoEarlyHit (lit "**To:** ") nm →
      NoEarlyHit (lit "**Reason:** ") nm →
      strip fromS = fromS → (∀ c ∈ fromS, c ≠ '\n') →
      NoEarlyHit (lit "**To:** ") fromS → NoEarlyHit (lit "**Reason:** ") fromS →
      strip toS = toS → (∀ c ∈ toS, c ≠ '\n') →
      NoEarlyHit (lit "**Reason:** ") toS →
      strip reason = reason → (∀ c ∈ reason, c ≠ '\n') → reason ≠ [] →
      (parse_leave_card (leaveCardContent nm fromS toS days reason)).1 = nm ∧
      (parse_leave_card (leaveCardContent nm fromS toS days reason)).2.1 = fromS ∧
      (parse_leave_card (leaveCardContent nm fromS toS days reason)).2.2.1 = toS ∧
      (parse_leave_card (leaveCardContent nm fromS toS days reason)).2.2.2.1 = reason := by
  intro nm fromS toS reason days hnmP hnmS hnmNL hnmF hnmT hnmR
    hfS hfNL hfT hfR htS htNL htR hrS hrNL hrne
  have hremp : reason.isEmpty = false := by
    cases reason with
    | nil => exact absurd rfl hrne
    | cons a t => rfl
  have hcontent : leaveCardContent nm fromS toS days reason =
      lit "📩 **Leave Request from " ++ (nm ++ (lit "**\n🗓️ **From:** " ++ (fromS ++
        (lit "\n🗓️ **To:** " ++ (toS ++ (lit "\n🗓️ **Days:** " ++ (intStr days ++
          (lit "\n💬 **Reason:** " ++ (reason ++
            lit "\n\nPlease review and respond accordingly."))))))))) := by
    unfold leaveCardContent
    simp [hremp, List.append_assoc]
  have hfl : firstLine (leaveCardContent nm fromS toS days reason) =
      lit "📩 **Leave Request from " ++ (nm ++ lit "**") := by
    have hsh : leaveCardContent nm fromS toS days reason =
        (lit "📩 **Leave Request from " ++ (nm ++ lit "**")) ++ ['\n'] ++
          (lit "🗓️ **From:** " ++ (fromS ++ (lit "\n🗓️ **To:** " ++ (toS ++
            (lit "\n🗓️ **Days:** " ++ (intStr days ++ (lit "\n💬 **Reason:** " ++
              (reason ++ lit "\n\nPlease review and respond accordingly.")))))))) := by
      rw [hcontent]
      have h2 : lit "**\n🗓️ **From:** " =
          lit "**" ++ ('\n' :: lit "🗓️ **From:** ") := by decide
      rw [h2]
      simp [List.append_assoc]
    unfold firstLine
    rw [hsh, splitFirst_of_noEarlyHit (by decide)
      (NoEarlyHit.ofAllNe (allNe_append (by decide) (allNe_append hnmNL (by decide))))]
  have hmarker : stripReqMarker leaveMarkers
      (lit "📩 **Leave Request from " ++ (nm ++ lit "**")) = nm ++ lit "**" := by
    have hsp : splitFirst (lit "**Leave Request from ")
        (lit "📩 **Leave Request from " ++ (nm ++ lit "**")) =
        some (lit "📩 ", nm ++ lit "**") := by
      have h1 : lit "📩 **Leave Request from " =
          lit "📩 " ++ lit "**Leave Request from " := by decide
      rw [h1]
      exact splitFirst_of_noEarlyHit (by decide) (noEarlyHit_of_B (by decide))
    unfold leaveMarkers stripReqMarker
    rw [hsp]
  have hname : strip (pyStrip isStarSpace (stripReqMarker leaveMarkers
      (firstLine (leaveCardContent nm fromS toS days reason)))) = nm := by
    rw [hfl, hmarker, pyStrip_append_sat hnmP (by decide)]
    exact hnmS
  have hfrom : grabBetween (lit "**From:** ")
      (leaveCardContent nm fromS toS days reason) = fromS := by
    have hsh : leaveCardContent nm fromS toS days reason =
        (lit "📩 **Leave Request from " ++ (nm ++ lit "**\n🗓️ ")) ++ lit "**From:** " ++
          (fromS ++ '\n' :: (lit "🗓️ **To:** " ++ (toS ++ (lit "\n🗓️ **Days:** " ++
            (intStr days ++ (lit "\n💬 **Reason:** " ++ (reason ++
              lit "\n\nPlease review and respond accordingly."))))))) := by
      rw [hcontent]
      have h2 : lit "**\n🗓️ **From:** " = lit "**\n🗓️ " ++ lit "**From:** " := by decide
      have h3 : lit "\n🗓️ **To:** " = '\n' :: lit "🗓️ **To:** " := by decide
      rw [h2, h3]
      simp [List.append_assoc]
    rw [hsh]
    exact grabBetween_exact (by decide)
      (NoEarlyHit.appendConcrete (by decide)
        (NoEarlyHit.appendLeft hnmF (noEarlyHit_of_B (by decide))))
      hfNL hfS
  have hto : grabBetween (lit "**To:** ")
      (leaveCardContent nm fromS toS days reason) = toS := by
    have hsh : leaveCardContent nm fromS toS days reason =
        (lit "📩 **Leave Request from " ++ (nm ++ (lit "**\n🗓️ **From:** " ++
          (fromS ++ lit "\n🗓️ ")))) ++ lit "**To:** " ++
          (toS ++ '\n' :: (lit "🗓️ **Days:** " ++ (intStr days ++
            (lit "\n💬 **Reason:** " ++ (reason ++
              lit "\n\nPlease review and respond accordingly."))))) := by
      rw [hcontent]
      have h2 : lit "\n🗓️ **To:** " = lit "\n🗓️ " ++ lit "**To:** " := by decide
      have h3 : lit "\n🗓️ **Days:** " = '\n' :: lit "🗓️ **Days:** " := by decide
      rw [h2, h3]
      simp [List.append_assoc]
    rw [hsh]
    exact grabBetween_exact (by decide)
      (NoEarlyHit.appendConcrete (by decide)
        (NoEarlyHit.appendLeft hnmT
          (NoEarlyHit.appendConcrete (by decide)
            (NoEarlyHit.appendLeft hfT (noEarlyHit_of_B (by decide))))))
      htNL htS
  have hreason : grabBetween (lit "**Reason:** ")
      (leaveCardContent nm fromS toS days reason) = reason := by
    have hsh : leaveCardContent nm fromS toS days reason =
        (lit "📩 **Leave Request from " ++ (nm ++ (lit "**\n🗓️ **From:** " ++
          (fromS ++ (lit "\n🗓️ **To:** " ++ (toS ++ (lit "\n🗓️ **Days:** " ++
            (intStr days ++ lit "\n💬 ")))))))) ++ lit "**Reason:** " ++
          (reason ++ '\n' :: lit "\nPlease review and respond accordingly.") := by
      rw [hcontent]
      have h2 : lit "\n💬 **Reason:** " = lit "\n💬 " ++ lit "**Reason:** " := by decide
      have h3 : lit "\n\nPlease review and respond accordingly." =
          '\n' :: lit "\nPlease review and respond accordingly." := by decide
      rw [h2, h3]
      simp [List.append_assoc]
    rw [hsh]
    exact grabBetween_exact (by decide)
      (NoEarlyHit.appendConcrete (by decide)
        (NoEarlyHit.appendLeft hnmR
          (NoEarlyHit.appendConcrete (by decide)
            (NoEarlyHit.appendLeft hfR
              (NoEarlyHit.appendConcrete (by decide)
                (NoEarlyHit.appendLeft htR
                  (NoEarlyHit.appendConcrete (by decide)
                    (NoEarlyHit.appendLeft (noEarlyHit_reason_intStr days)
                      (noEarlyHit_of_B (by decide))))))))))
      hrNL hrS
  simp only [parse_leave_card]
  exact ⟨hname, hfrom, hto, hreason⟩

/-- C6 witness: the round-trip at a concrete request, every hypothesis
    discharged by evaluation. -/
theorem C6_leave_card_roundtrip_witness :
    (parse_leave_card (leaveCardContent (lit "Alice") (lit "2025-03-01")
        (lit "2025-03-03") 2 (lit "trip"))).1 = lit "Alice" ∧
    (parse_leave_card (leaveCardContent (lit "Alice") (lit "2025-03-01")
        (lit "2025-03-03") 2 (lit "trip"))).2.1 = lit "2025-03-01" ∧
    (parse_leave_card (leaveCardContent (lit "Alice") (lit "2025-03-01")
        (lit "2025-03-03") 2 (lit "trip"))).2.2.1 = lit "2025-03-03" ∧
    (parse_leave_card (leaveCardContent (lit "Alice") (lit "2025-03-01")
        (lit "2025-03-03") 2 (lit "trip"))).2.2.2.1 = lit "trip" :=
  C6_leave_card_roundtrip (lit "Alice") (lit "2025-03-01") (lit "2025-03-03")
    (lit "trip") 2 (by decide) (by decide) (by decide)
    (noEarlyHit_of_B (by decide)) (noEarlyHit_of_B (by decide))
    (noEarlyHit_of_B (by decide))
    (by decide) (by decide) (noEarlyHit_of_B (by decide)) (noEarlyHit_of_B (by decide))
    (by decide) (by decide) (noEarlyHit_of_B (by decide))
    (by decide) (by decide) (by decide)

end AttendanceBot
